import Mathlib

/-!
# BansheeEngine: the core-thread command queue and the built-in material factory

A verification development for `CoreThreadAccessorBase`
(`BansheeCore/Source/BsCoreThreadAccessor.cpp`): the simulation-thread facade that turns
render-system and render-window calls into deferred commands, and hands batches of them to
the core thread; and for `D3D11BuiltinMaterialFactory`
(`BansheeEngine/Source/BsD3D11BuiltinMaterialFactory.cpp`), which builds the built-in
shaders and the materials made from them.

The accessor methods are embedded one by one from the source.  Their collaborators
(`CommandQueueBase`, `AsyncOp`, `GpuResourceData`, `GpuResource`, `GpuParams`, `CoreThread`,
`RenderSystem`, `RenderWindow`) are declared elsewhere; each of them is modelled below and the
model says so in its doc comment.

Conventions of the embedding:
* shared-pointer handles, enumeration values and plain value arguments are natural numbers
  (an id, an enumerator code, or the bit pattern of the value); the accessor only passes
  them through and never computes with them;
* the state of an external object is the history of the calls it received;
* the simulation thread and the core thread are sequentialised: a blocking submit runs the
  core thread inside the call, a non-blocking one leaves that to a later core-thread step.
-/

namespace BansheeEngine

/-! ## Argument types -/

/-- Enumerator code of a `GpuProgramType`. -/
abbrev GpuProgramType := Nat
/-- Enumerator code of a `DrawOperationType`. -/
abbrev DrawOperationType := Nat
/-- Handle of a texture (`TexturePtr`). -/
abbrev TexturePtr := Nat
/-- Handle of a sampler state. -/
abbrev SamplerStatePtr := Nat
/-- Handle of a blend state. -/
abbrev BlendStatePtr := Nat
/-- Handle of a rasterizer state. -/
abbrev RasterizerStatePtr := Nat
/-- Handle of a depth-stencil state. -/
abbrev DepthStencilStatePtr := Nat
/-- Handle of a render target. -/
abbrev RenderTargetPtr := Nat
/-- Handle of a GPU program. -/
abbrev HGpuProgram := Nat
/-- Handle of a `GpuParams` object. -/
abbrev GpuParamsPtr := Nat
/-- Handle of a mesh. -/
abbrev MeshBasePtr := Nat
/-- Handle of a GPU resource. -/
abbrev GpuResourcePtr := Nat
/-- Handle of a `GpuResourceData` buffer. -/
abbrev GpuResourceDataPtr := Nat
/-- Raw pointer to a render window, as obtained by `renderWindow.get()`. -/
abbrev RenderWindowRaw := Nat
/-- A `Viewport` value. -/
abbrev Viewport := Nat
/-- A `Plane` value. -/
abbrev Plane := Nat
/-- A `PlaneList` value. -/
abbrev PlaneList := List Plane
/-- A `Color` value. -/
abbrev Color := Nat
/-- A `float` argument, by its bit pattern. -/
abbrev FloatBits := Nat
/-- A `VideoMode` value. -/
abbrev VideoMode := Nat
/-- Address of a `VideoMode` variable of the caller (`std::cref(mode)`). -/
abbrev VideoModeRef := Nat
/-- Handle of an `AsyncOp` result cell. -/
abbrev AsyncOp := Nat
/-- Identity of a callback supplied by the caller. -/
abbrev UserCallback := Nat
/-- Pointer to a detached `Queue<QueuedCommand>`, as returned by `flush`. -/
abbrev QueuePtr := Nat

/-! ## Calls on the collaborators -/

/-- A call of a `RenderSystem` method with its arguments, in the order of the method's
parameters.  The two subresource methods take the `AsyncOp` sink as their last argument. -/
inductive RenderSystemCall where
  | disableTextureUnit (gptype : GpuProgramType) (texUnit : Nat)
  | setTexture (gptype : GpuProgramType) (unit : Nat) (enabled : Bool) (texPtr : TexturePtr)
  | setSamplerState (gptype : GpuProgramType) (texUnit : Nat) (samplerState : SamplerStatePtr)
  | setBlendState (blendState : BlendStatePtr)
  | setRasterizerState (rasterizerState : RasterizerStatePtr)
  | setDepthStencilState (depthStencilState : DepthStencilStatePtr) (stencilRefValue : Nat)
  | setViewport (vp : Viewport)
  | setDrawOperation (op : DrawOperationType)
  | setClipPlanes (clipPlanes : PlaneList)
  | addClipPlane (p : Plane)
  | resetClipPlanes
  | setScissorRect (left top right bottom : Nat)
  | setRenderTarget (target : RenderTargetPtr)
  | bindGpuProgram (prg : HGpuProgram)
  | unbindGpuProgram (gptype : GpuProgramType)
  | bindGpuParams (gptype : GpuProgramType) (params : GpuParamsPtr)
  | beginFrame
  | endFrame
  | clearRenderTarget (buffers : Nat) (color : Color) (depth : FloatBits) (stencil : Nat)
  | clearViewport (buffers : Nat) (color : Color) (depth : FloatBits) (stencil : Nat)
  | swapBuffers (target : RenderTargetPtr)
  | render (mesh : MeshBasePtr) (indexOffset indexCount : Nat) (useIndices : Bool)
      (drawOp : DrawOperationType)
  | draw (vertexOffset vertexCount : Nat)
  | drawIndexed (startIndex indexCount vertexOffset vertexCount : Nat)
  | writeSubresource (resource : GpuResourcePtr) (subresourceIdx : Nat)
      (data : GpuResourceDataPtr) (discardEntireBuffer : Bool) (asyncOp : AsyncOp)
  | readSubresource (resource : GpuResourcePtr) (subresourceIdx : Nat)
      (data : GpuResourceDataPtr) (asyncOp : AsyncOp)
  deriving DecidableEq, Repr

/-- A call of a `RenderWindow` method with its arguments.  For the `VideoMode` overload of
`setFullscreen` the argument is what the bound reference designates when the call is made:
`none` when the referenced variable is gone. -/
inductive RenderWindowCall where
  | resize (width height : Nat)
  | move (left top : Int)
  | setHidden (hidden : Bool)
  | setFullscreen (width height : Nat) (refreshRate : FloatBits) (monitorIdx : Nat)
  | setFullscreenMode (mode : Option VideoMode)
  | setWindowed (width height : Nat)
  deriving DecidableEq, Repr

/-- What a `std::function<void()>` handed to `CommandQueueBase::queue` is bound to. -/
inductive Callback where
  /-- A bound render-system method:
  `std::bind(&RenderSystem::m, RenderSystem::instancePtr(), args...)`. -/
  | renderSystem (call : RenderSystemCall)
  /-- A bound render-window method, arguments bound by value:
  `std::bind(&RenderWindow::m, renderWindow.get(), args...)`. -/
  | renderWindow (window : RenderWindowRaw) (call : RenderWindowCall)
  /-- The `VideoMode` overload of `setFullscreen`, the mode bound by reference:
  `std::bind(funcPtr, renderWindow.get(), std::cref(mode))`. -/
  | renderWindowFullscreenRef (window : RenderWindowRaw) (mode : VideoModeRef)
  /-- A callback of the caller, passed to `queueCommand`. -/
  | user (f : UserCallback)
  deriving DecidableEq, Repr

/-- What a `std::function<void(AsyncOp&)>` handed to `CommandQueueBase::queueReturn` is
bound to; the `AsyncOp` is the placeholder `_1`. -/
inductive ReturnCallback where
  | writeSubresource (resource : GpuResourcePtr) (subresourceIdx : Nat)
      (data : GpuResourceDataPtr) (discardEntireBuffer : Bool)
  | readSubresource (resource : GpuResourcePtr) (subresourceIdx : Nat)
      (data : GpuResourceDataPtr)
  /-- A callback of the caller, passed to `queueReturnCommand`. -/
  | user (f : UserCallback)
  deriving DecidableEq, Repr

/-- Modelled from the spec: `QueuedCommand` (declared in `BsCommandQueue.h`, which is not
among the translated sources).  A command holds an invocable and, when it was queued with
`queueReturn`, the `AsyncOp` that is the sink of its result. -/
inductive QueuedCommand where
  | plain (callback : Callback)
  | withReturn (callback : ReturnCallback) (asyncOp : AsyncOp)
  deriving DecidableEq, Repr

/-- An operation performed on the core thread when a command is invoked. -/
inductive CoreCall where
  | renderSystem (call : RenderSystemCall)
  | renderWindow (window : RenderWindowRaw) (call : RenderWindowCall)
  | user (f : UserCallback)
  | userReturn (f : UserCallback) (asyncOp : AsyncOp)
  deriving DecidableEq, Repr

/-- An allocator that `GpuParams::_cloneForCore` can be handed: the frame allocator of the
core thread, or some other allocator. -/
inductive FrameAlloc where
  | coreThreadFrameAlloc
  | other (id : Nat)
  deriving DecidableEq, Repr

/-- A call made by an accessor method on one of its collaborators, on the calling thread. -/
inductive SimEvent where
  /-- The call `data->_lock()`. -/
  | lock (data : GpuResourceDataPtr)
  /-- The call `resource->_writeSubresourceSim(subresourceIdx, *data, discardEntireBuffer)`. -/
  | writeSubresourceSim (resource : GpuResourcePtr) (subresourceIdx : Nat)
      (data : GpuResourceDataPtr) (discardEntireBuffer : Bool)
  /-- The call `params->_cloneForCore(frameAlloc)`, with the allocator it was handed and the
  clone it returned. -/
  | cloneForCore (params : GpuParamsPtr) (frameAlloc : FrameAlloc) (clone : GpuParamsPtr)
  /-- The call `mCommandQueue->queue(callback)`. -/
  | queue (callback : Callback)
  /-- The call `mCommandQueue->queueReturn(callback)`, with the `AsyncOp` it returned. -/
  | queueReturn (callback : ReturnCallback) (asyncOp : AsyncOp)
  /-- The call `mCommandQueue->flush()`, with the pointer it returned. -/
  | flush (commands : QueuePtr)
  /-- The call `mCommandQueue->cancelAll()`. -/
  | cancelAll
  /-- The call `gCoreThread().queueCommand(std::bind(&CommandQueueBase::playback,
  mCommandQueue, commands), blockUntilComplete)`. -/
  | coreQueueCommand (commands : QueuePtr) (blockUntilComplete : Bool)
  deriving DecidableEq, Repr

/-- A simulated write recorded in the simulation-side shadow state of a resource. -/
structure SimWrite where
  resource : GpuResourcePtr
  subresourceIdx : Nat
  data : GpuResourceDataPtr
  discardEntireBuffer : Bool
  deriving DecidableEq, Repr

/-! ## The state -/

/-- Everything an accessor method can read or change: the accessor's command queue, the
objects its arguments refer to, the core thread and the render system behind it. -/
structure World where
  /-- The commands in the current buffer of `mCommandQueue`, oldest first. -/
  mCommands : List QueuedCommand
  /-- The buffers detached by `flush`, each with the commands it held when it was detached;
  a `QueuePtr` is an index into this list.  Playing a buffer back consumes its entry of
  `coreQueue`, the record of what it held stays. -/
  batches : List (List QueuedCommand)
  /-- The number of `AsyncOp` cells allocated so far; the next one gets this handle. -/
  nextAsyncOp : Nat
  /-- The `AsyncOp` cells that were completed, one entry per completion, oldest first. -/
  completed : List AsyncOp
  /-- The `GpuResourceData` buffers that are locked. -/
  locked : List GpuResourceDataPtr
  /-- The simulated writes applied to simulation-side shadow state, oldest first. -/
  shadow : List SimWrite
  /-- The contents of the `GpuParams` objects; a `GpuParamsPtr` is an index into this list. -/
  gpuParams : List Nat
  /-- The `VideoMode` variables of the caller; a `VideoModeRef` is an index into this list. -/
  videoModes : List VideoMode
  /-- The playback invocations the core thread has accepted and not yet run, oldest first. -/
  coreQueue : List QueuePtr
  /-- The operations performed on the core thread, oldest first. -/
  coreTrace : List CoreCall
  /-- The collaborator calls made by the accessor on the calling thread, oldest first. -/
  simLog : List SimEvent
  deriving DecidableEq, Repr

/-- A freshly constructed accessor: nothing queued, nothing submitted, nothing executed. -/
def World.init : World :=
  { mCommands := [], batches := [], nextAsyncOp := 0, completed := [], locked := [],
    shadow := [], gpuParams := [], videoModes := [], coreQueue := [], coreTrace := [],
    simLog := [] }

/-- Whether an `AsyncOp` is Pending: it has not been completed. -/
def World.isPending (s : World) (op : AsyncOp) : Bool :=
  !s.completed.contains op

/-- Whether an `AsyncOp` is Completed. -/
def World.isCompleted (s : World) (op : AsyncOp) : Bool :=
  s.completed.contains op

/-- How many times an `AsyncOp` was completed. -/
def World.completions (s : World) (op : AsyncOp) : Nat :=
  s.completed.count op

/-- Whether a `GpuResourceData` buffer is locked. -/
def World.isLocked (s : World) (data : GpuResourceDataPtr) : Bool :=
  s.locked.contains data

/-- The detached buffer a `QueuePtr` points to. -/
def World.batch (s : World) (commands : QueuePtr) : List QueuedCommand :=
  s.batches.getD commands []

/-! ## The collaborators -/

/-- Modelled from the spec: `AsyncOp::_completeOperation`, which is not among the translated
sources.  An `AsyncOp` is a shared result cell with the states Pending and Completed; the
executing thread completes it when the corresponding command runs.  Every completion is
recorded, so that a second completion of the same cell is visible. -/
def AsyncOp._completeOperation (op : AsyncOp) (s : World) : World :=
  { s with completed := s.completed ++ [op] }

/-- Modelled from the spec: `GpuResourceData::_lock`, which is not among the translated
sources.  The buffer is marked as locked (in flight) by the issuing thread. -/
def GpuResourceData._lock (data : GpuResourceDataPtr) (s : World) : World :=
  { s with
    locked := if s.locked.contains data then s.locked else s.locked ++ [data]
    simLog := s.simLog ++ [.lock data] }

/-- Modelled from the spec: `GpuResourceData::_unlock`, which is not among the translated
sources.  The buffer is unlocked by the core thread after the command that uses it ran. -/
def GpuResourceData._unlock (data : GpuResourceDataPtr) (s : World) : World :=
  { s with locked := s.locked.filter (fun d => d != data) }

/-- Modelled from the spec: `GpuResource::_writeSubresourceSim`, which is not among the
translated sources.  A simulated copy of the write is pushed to the simulation-side shadow
state, so that readers on the simulation thread observe the pending write. -/
def GpuResource._writeSubresourceSim (resource : GpuResourcePtr) (subresourceIdx : Nat)
    (data : GpuResourceDataPtr) (discardEntireBuffer : Bool) (s : World) : World :=
  { s with
    shadow := s.shadow ++ [⟨resource, subresourceIdx, data, discardEntireBuffer⟩]
    simLog := s.simLog ++ [.writeSubresourceSim resource subresourceIdx data discardEntireBuffer] }

/-- The value of `gCoreThread().getFrameAlloc()`: the frame allocator of the core thread. -/
def CoreThread.getFrameAlloc : FrameAlloc :=
  .coreThreadFrameAlloc

/-- Modelled from the spec: `GpuParams::_cloneForCore`, which is not among the translated
sources.  A new `GpuParams` object with the contents of `params` is allocated from the
allocator handed to the call, and its handle returned. -/
def GpuParams._cloneForCore (params : GpuParamsPtr) (frameAlloc : FrameAlloc) (s : World) :
    GpuParamsPtr × World :=
  (s.gpuParams.length,
    { s with
      gpuParams := s.gpuParams ++ [s.gpuParams.getD params 0]
      simLog := s.simLog ++ [.cloneForCore params frameAlloc s.gpuParams.length] })

/-- Modelled from the spec: the `RenderSystem` singleton, which is not among the translated
sources.  Each method is a plain synchronous procedure run on the core thread; the call is
recorded.  The two subresource methods unlock the data buffer and complete the `AsyncOp`
they are given. -/
def RenderSystem.call (c : RenderSystemCall) (s : World) : World :=
  let s1 := { s with coreTrace := s.coreTrace ++ [.renderSystem c] }
  match c with
  | .writeSubresource _ _ data _ asyncOp =>
      AsyncOp._completeOperation asyncOp (GpuResourceData._unlock data s1)
  | .readSubresource _ _ data asyncOp =>
      AsyncOp._completeOperation asyncOp (GpuResourceData._unlock data s1)
  | _ => s1

/-- Modelled from the spec: a `RenderWindow`, which is not among the translated sources.
Each method is a plain synchronous procedure run on the core thread; the call is recorded. -/
def RenderWindow.call (window : RenderWindowRaw) (c : RenderWindowCall) (s : World) : World :=
  { s with coreTrace := s.coreTrace ++ [.renderWindow window c] }

/-- Invoking the invocable of a command on the core thread.  A bound method is called with
its bound arguments, a bound reference is read when the command runs, and a
result-carrying callback is handed the `AsyncOp` of its command.  A callback of the caller
is taken to touch nothing of this state but its own `AsyncOp`, which it completes once. -/
def QueuedCommand.execute (cmd : QueuedCommand) (s : World) : World :=
  match cmd with
  | .plain (.renderSystem c) => RenderSystem.call c s
  | .plain (.renderWindow w c) => RenderWindow.call w c s
  | .plain (.renderWindowFullscreenRef w mode) =>
      RenderWindow.call w (.setFullscreenMode s.videoModes[mode]?) s
  | .plain (.user f) => { s with coreTrace := s.coreTrace ++ [.user f] }
  | .withReturn (.writeSubresource r i d discard) op =>
      RenderSystem.call (.writeSubresource r i d discard op) s
  | .withReturn (.readSubresource r i d) op =>
      RenderSystem.call (.readSubresource r i d op) s
  | .withReturn (.user f) op =>
      AsyncOp._completeOperation op { s with coreTrace := s.coreTrace ++ [.userReturn f op] }

namespace CommandQueueBase

/-- Modelled from the spec: `CommandQueueBase::queue`, which is not among the translated
sources.  Appends a command without result to the queue. -/
def queue (callback : Callback) (s : World) : World :=
  { s with
    mCommands := s.mCommands ++ [.plain callback]
    simLog := s.simLog ++ [.queue callback] }

/-- Modelled from the spec: `CommandQueueBase::queueReturn`, which is not among the
translated sources.  As `queue`, and allocates an `AsyncOp`, binds it as the sink of the
result and returns the handle. -/
def queueReturn (callback : ReturnCallback) (s : World) : AsyncOp × World :=
  (s.nextAsyncOp,
    { s with
      mCommands := s.mCommands ++ [.withReturn callback s.nextAsyncOp]
      nextAsyncOp := s.nextAsyncOp + 1
      simLog := s.simLog ++ [.queueReturn callback s.nextAsyncOp] })

/-- Modelled from the spec: `CommandQueueBase::flush`, which is not among the translated
sources.  Detaches the current sequence of queued commands, installs a fresh empty buffer
and returns the detached sequence. -/
def flush (s : World) : QueuePtr × World :=
  (s.batches.length,
    { s with
      batches := s.batches ++ [s.mCommands]
      mCommands := []
      simLog := s.simLog ++ [.flush s.batches.length] })

/-- Modelled from the spec: `CommandQueueBase::cancelAll`, which is not among the translated
sources.  Discards the queued, not yet flushed commands without executing them.  The
`AsyncOp`s bound to them are left as they are: they never become Completed. -/
def cancelAll (s : World) : World :=
  { s with
    mCommands := []
    simLog := s.simLog ++ [.cancelAll] }

/-- Invoking a sequence of commands in order. -/
def invokeAll (cmds : List QueuedCommand) (s : World) : World :=
  cmds.foldl (fun w cmd => cmd.execute w) s

/-- Modelled from the spec: `CommandQueueBase::playback`, which is not among the translated
sources.  Run by the core thread: iterates the detached sequence strictly in insertion
order and invokes the work of each command. -/
def playback (commands : QueuePtr) (s : World) : World :=
  invokeAll (s.batch commands) s

end CommandQueueBase

namespace CoreThread

/-- Modelled from the spec: the core thread running every playback invocation it has
accepted, oldest first. -/
def runAll (s : World) : World :=
  s.coreQueue.foldl (fun w commands => CommandQueueBase.playback commands w)
    { s with coreQueue := [] }

/-- Modelled from the spec: the core thread running the oldest playback invocation it has
accepted, if there is one. -/
def runNext (s : World) : World :=
  match s.coreQueue with
  | [] => s
  | commands :: rest => CommandQueueBase.playback commands { s with coreQueue := rest }

/-- Modelled from the spec: `CoreThread::queueCommand`, the entry point of the executor,
which is not among the translated sources.  It accepts the invocation that replays a batch;
with `blockUntilComplete` the calling thread is suspended until the core thread has run it,
and the core thread runs what it accepted in order. -/
def queueCommand (commands : QueuePtr) (blockUntilComplete : Bool) (s : World) : World :=
  let s1 := { s with
    coreQueue := s.coreQueue ++ [commands]
    simLog := s.simLog ++ [.coreQueueCommand commands blockUntilComplete] }
  if blockUntilComplete then runAll s1 else s1

end CoreThread

/-! ## The accessor -/

namespace CoreThreadAccessorBase

/-- Source: `CoreThreadAccessorBase::disableTextureUnit`. -/
@[simp]
def disableTextureUnit (gptype : GpuProgramType) (texUnit : Nat) (s : World) : World :=
  CommandQueueBase.queue (.renderSystem (.disableTextureUnit gptype texUnit)) s

/-- Source: `CoreThreadAccessorBase::setTexture`. -/
@[simp]
def setTexture (gptype : GpuProgramType) (unit : Nat) (enabled : Bool) (texPtr : TexturePtr)
    (s : World) : World :=
  CommandQueueBase.queue (.renderSystem (.setTexture gptype unit enabled texPtr)) s

/-- Source: `CoreThreadAccessorBase::setSamplerState`. -/
@[simp]
def setSamplerState (gptype : GpuProgramType) (texUnit : Nat) (samplerState : SamplerStatePtr)
    (s : World) : World :=
  CommandQueueBase.queue (.renderSystem (.setSamplerState gptype texUnit samplerState)) s

/-- Source: `CoreThreadAccessorBase::setBlendState`. -/
@[simp]
def setBlendState (blendState : BlendStatePtr) (s : World) : World :=
  CommandQueueBase.queue (.renderSystem (.setBlendState blendState)) s

/-- Source: `CoreThreadAccessorBase::setRasterizerState`. -/
@[simp]
def setRasterizerState (rasterizerState : RasterizerStatePtr) (s : World) : World :=
  CommandQueueBase.queue (.renderSystem (.setRasterizerState rasterizerState)) s

/-- Source: `CoreThreadAccessorBase::setDepthStencilState`. -/
@[simp]
def setDepthStencilState (depthStencilState : DepthStencilStatePtr) (stencilRefValue : Nat)
    (s : World) : World :=
  CommandQueueBase.queue
    (.renderSystem (.setDepthStencilState depthStencilState stencilRefValue)) s

/-- Source: `CoreThreadAccessorBase::setViewport`. -/
@[simp]
def setViewport (vp : Viewport) (s : World) : World :=
  CommandQueueBase.queue (.renderSystem (.setViewport vp)) s

/-- Source: `CoreThreadAccessorBase::setDrawOperation`. -/
@[simp]
def setDrawOperation (op : DrawOperationType) (s : World) : World :=
  CommandQueueBase.queue (.renderSystem (.setDrawOperation op)) s

/-- Source: `CoreThreadAccessorBase::setClipPlanes`. -/
@[simp]
def setClipPlanes (clipPlanes : PlaneList) (s : World) : World :=
  CommandQueueBase.queue (.renderSystem (.setClipPlanes clipPlanes)) s

/-- Source: `CoreThreadAccessorBase::addClipPlane`. -/
@[simp]
def addClipPlane (p : Plane) (s : World) : World :=
  CommandQueueBase.queue (.renderSystem (.addClipPlane p)) s

/-- Source: `CoreThreadAccessorBase::resetClipPlanes`. -/
@[simp]
def resetClipPlanes (s : World) : World :=
  CommandQueueBase.queue (.renderSystem .resetClipPlanes) s

/-- Source: `CoreThreadAccessorBase::setScissorTest`; the bound method is
`RenderSystem::setScissorRect`. -/
@[simp]
def setScissorTest (left top right bottom : Nat) (s : World) : World :=
  CommandQueueBase.queue (.renderSystem (.setScissorRect left top right bottom)) s

/-- Source: `CoreThreadAccessorBase::setRenderTarget`. -/
@[simp]
def setRenderTarget (target : RenderTargetPtr) (s : World) : World :=
  CommandQueueBase.queue (.renderSystem (.setRenderTarget target)) s

/-- Source: `CoreThreadAccessorBase::bindGpuProgram`. -/
@[simp]
def bindGpuProgram (prg : HGpuProgram) (s : World) : World :=
  CommandQueueBase.queue (.renderSystem (.bindGpuProgram prg)) s

/-- Source: `CoreThreadAccessorBase::unbindGpuProgram`. -/
@[simp]
def unbindGpuProgram (gptype : GpuProgramType) (s : World) : World :=
  CommandQueueBase.queue (.renderSystem (.unbindGpuProgram gptype)) s

/-- Source: `CoreThreadAccessorBase::bindGpuParams`; the argument of the bound call is the
clone made, from the frame allocator of the core thread, when the accessor method is
called. -/
@[simp]
def bindGpuParams (gptype : GpuProgramType) (params : GpuParamsPtr) (s : World) : World :=
  let (clone, s1) := GpuParams._cloneForCore params CoreThread.getFrameAlloc s
  CommandQueueBase.queue (.renderSystem (.bindGpuParams gptype clone)) s1

/-- Source: `CoreThreadAccessorBase::beginRender`; the bound method is
`RenderSystem::beginFrame`. -/
@[simp]
def beginRender (s : World) : World :=
  CommandQueueBase.queue (.renderSystem .beginFrame) s

/-- Source: `CoreThreadAccessorBase::endRender`; the bound method is
`RenderSystem::endFrame`. -/
@[simp]
def endRender (s : World) : World :=
  CommandQueueBase.queue (.renderSystem .endFrame) s

/-- Source: `CoreThreadAccessorBase::clearRenderTarget`. -/
@[simp]
def clearRenderTarget (buffers : Nat) (color : Color) (depth : FloatBits) (stencil : Nat)
    (s : World) : World :=
  CommandQueueBase.queue (.renderSystem (.clearRenderTarget buffers color depth stencil)) s

/-- Source: `CoreThreadAccessorBase::clearViewport`. -/
@[simp]
def clearViewport (buffers : Nat) (color : Color) (depth : FloatBits) (stencil : Nat)
    (s : World) : World :=
  CommandQueueBase.queue (.renderSystem (.clearViewport buffers color depth stencil)) s

/-- Source: `CoreThreadAccessorBase::swapBuffers`. -/
@[simp]
def swapBuffers (target : RenderTargetPtr) (s : World) : World :=
  CommandQueueBase.queue (.renderSystem (.swapBuffers target)) s

/-- Source: `CoreThreadAccessorBase::render`. -/
@[simp]
def render (mesh : MeshBasePtr) (indexOffset indexCount : Nat) (useIndices : Bool)
    (drawOp : DrawOperationType) (s : World) : World :=
  CommandQueueBase.queue
    (.renderSystem (.render mesh indexOffset indexCount useIndices drawOp)) s

/-- Source: `CoreThreadAccessorBase::draw`. -/
@[simp]
def draw (vertexOffset vertexCount : Nat) (s : World) : World :=
  CommandQueueBase.queue (.renderSystem (.draw vertexOffset vertexCount)) s

/-- Source: `CoreThreadAccessorBase::drawIndexed`. -/
@[simp]
def drawIndexed (startIndex indexCount vertexOffset vertexCount : Nat) (s : World) : World :=
  CommandQueueBase.queue
    (.renderSystem (.drawIndexed startIndex indexCount vertexOffset vertexCount)) s

/-- Source: `CoreThreadAccessorBase::writeSubresource`. -/
@[simp]
def writeSubresource (resource : GpuResourcePtr) (subresourceIdx : Nat)
    (data : GpuResourceDataPtr) (discardEntireBuffer : Bool) (s : World) : AsyncOp × World :=
  let s1 := GpuResourceData._lock data s
  let s2 := GpuResource._writeSubresourceSim resource subresourceIdx data discardEntireBuffer s1
  CommandQueueBase.queueReturn
    (.writeSubresource resource subresourceIdx data discardEntireBuffer) s2

/-- Source: `CoreThreadAccessorBase::readSubresource`. -/
@[simp]
def readSubresource (resource : GpuResourcePtr) (subresourceIdx : Nat)
    (data : GpuResourceDataPtr) (s : World) : AsyncOp × World :=
  let s1 := GpuResourceData._lock data s
  CommandQueueBase.queueReturn (.readSubresource resource subresourceIdx data) s1

/-- Source: `CoreThreadAccessorBase::resizeWindow`. -/
@[simp]
def resizeWindow (renderWindow : RenderWindowRaw) (width height : Nat) (s : World) : World :=
  CommandQueueBase.queue (.renderWindow renderWindow (.resize width height)) s

/-- Source: `CoreThreadAccessorBase::moveWindow`. -/
@[simp]
def moveWindow (renderWindow : RenderWindowRaw) (left top : Int) (s : World) : World :=
  CommandQueueBase.queue (.renderWindow renderWindow (.move left top)) s

/-- Source: `CoreThreadAccessorBase::hideWindow`. -/
@[simp]
def hideWindow (renderWindow : RenderWindowRaw) (s : World) : World :=
  CommandQueueBase.queue (.renderWindow renderWindow (.setHidden true)) s

/-- Source: `CoreThreadAccessorBase::showWindow`. -/
@[simp]
def showWindow (renderWindow : RenderWindowRaw) (s : World) : World :=
  CommandQueueBase.queue (.renderWindow renderWindow (.setHidden false)) s

/-- Source: `CoreThreadAccessorBase::setFullscreen` with width, height, refresh rate and
monitor index. -/
@[simp]
def setFullscreen (renderWindow : RenderWindowRaw) (width height : Nat)
    (refreshRate : FloatBits) (monitorIdx : Nat) (s : World) : World :=
  CommandQueueBase.queue
    (.renderWindow renderWindow (.setFullscreen width height refreshRate monitorIdx)) s

/-- Source: `CoreThreadAccessorBase::setFullscreen` with a `VideoMode`; the mode is bound
with `std::cref`. -/
@[simp]
def setFullscreenMode (renderWindow : RenderWindowRaw) (mode : VideoModeRef) (s : World) :
    World :=
  CommandQueueBase.queue (.renderWindowFullscreenRef renderWindow mode) s

/-- Source: `CoreThreadAccessorBase::setWindowed`. -/
@[simp]
def setWindowed (renderWindow : RenderWindowRaw) (width height : Nat) (s : World) : World :=
  CommandQueueBase.queue (.renderWindow renderWindow (.setWindowed width height)) s

/-- Source: `CoreThreadAccessorBase::queueReturnCommand`. -/
@[simp]
def queueReturnCommand (commandCallback : UserCallback) (s : World) : AsyncOp × World :=
  CommandQueueBase.queueReturn (.user commandCallback) s

/-- Source: `CoreThreadAccessorBase::queueCommand`. -/
@[simp]
def queueCommand (commandCallback : UserCallback) (s : World) : World :=
  CommandQueueBase.queue (.user commandCallback) s

/-- Source: `CoreThreadAccessorBase::submitToCoreThread`. -/
@[simp]
def submitToCoreThread (blockUntilComplete : Bool) (s : World) : World :=
  let (commands, s1) := CommandQueueBase.flush s
  CoreThread.queueCommand commands blockUntilComplete s1

/-- Source: `CoreThreadAccessorBase::cancelAll`. -/
@[simp]
def cancelAll (s : World) : World :=
  CommandQueueBase.cancelAll s

end CoreThreadAccessorBase

/-! ## Calls, sequences of calls, and what they queue -/

/-- A call of a public method of the accessor, with its arguments. -/
inductive AccessorCall where
  | disableTextureUnit (gptype : GpuProgramType) (texUnit : Nat)
  | setTexture (gptype : GpuProgramType) (unit : Nat) (enabled : Bool) (texPtr : TexturePtr)
  | setSamplerState (gptype : GpuProgramType) (texUnit : Nat) (samplerState : SamplerStatePtr)
  | setBlendState (blendState : BlendStatePtr)
  | setRasterizerState (rasterizerState : RasterizerStatePtr)
  | setDepthStencilState (depthStencilState : DepthStencilStatePtr) (stencilRefValue : Nat)
  | setViewport (vp : Viewport)
  | setDrawOperation (op : DrawOperationType)
  | setClipPlanes (clipPlanes : PlaneList)
  | addClipPlane (p : Plane)
  | resetClipPlanes
  | setScissorTest (left top right bottom : Nat)
  | setRenderTarget (target : RenderTargetPtr)
  | bindGpuProgram (prg : HGpuProgram)
  | unbindGpuProgram (gptype : GpuProgramType)
  | bindGpuParams (gptype : GpuProgramType) (params : GpuParamsPtr)
  | beginRender
  | endRender
  | clearRenderTarget (buffers : Nat) (color : Color) (depth : FloatBits) (stencil : Nat)
  | clearViewport (buffers : Nat) (color : Color) (depth : FloatBits) (stencil : Nat)
  | swapBuffers (target : RenderTargetPtr)
  | render (mesh : MeshBasePtr) (indexOffset indexCount : Nat) (useIndices : Bool)
      (drawOp : DrawOperationType)
  | draw (vertexOffset vertexCount : Nat)
  | drawIndexed (startIndex indexCount vertexOffset vertexCount : Nat)
  | writeSubresource (resource : GpuResourcePtr) (subresourceIdx : Nat)
      (data : GpuResourceDataPtr) (discardEntireBuffer : Bool)
  | readSubresource (resource : GpuResourcePtr) (subresourceIdx : Nat)
      (data : GpuResourceDataPtr)
  | resizeWindow (renderWindow : RenderWindowRaw) (width height : Nat)
  | moveWindow (renderWindow : RenderWindowRaw) (left top : Int)
  | hideWindow (renderWindow : RenderWindowRaw)
  | showWindow (renderWindow : RenderWindowRaw)
  | setFullscreen (renderWindow : RenderWindowRaw) (width height : Nat)
      (refreshRate : FloatBits) (monitorIdx : Nat)
  | setFullscreenMode (renderWindow : RenderWindowRaw) (mode : VideoModeRef)
  | setWindowed (renderWindow : RenderWindowRaw) (width height : Nat)
  | queueReturnCommand (commandCallback : UserCallback)
  | queueCommand (commandCallback : UserCallback)
  | submitToCoreThread (blockUntilComplete : Bool)
  | cancelAll
  deriving DecidableEq, Repr

namespace AccessorCall

/-- The state after a call of the accessor. -/
def run (c : AccessorCall) (s : World) : World :=
  match c with
  | .disableTextureUnit g u => CoreThreadAccessorBase.disableTextureUnit g u s
  | .setTexture g u e t => CoreThreadAccessorBase.setTexture g u e t s
  | .setSamplerState g u st => CoreThreadAccessorBase.setSamplerState g u st s
  | .setBlendState b => CoreThreadAccessorBase.setBlendState b s
  | .setRasterizerState r => CoreThreadAccessorBase.setRasterizerState r s
  | .setDepthStencilState d v => CoreThreadAccessorBase.setDepthStencilState d v s
  | .setViewport vp => CoreThreadAccessorBase.setViewport vp s
  | .setDrawOperation op => CoreThreadAccessorBase.setDrawOperation op s
  | .setClipPlanes ps => CoreThreadAccessorBase.setClipPlanes ps s
  | .addClipPlane p => CoreThreadAccessorBase.addClipPlane p s
  | .resetClipPlanes => CoreThreadAccessorBase.resetClipPlanes s
  | .setScissorTest l t r b => CoreThreadAccessorBase.setScissorTest l t r b s
  | .setRenderTarget t => CoreThreadAccessorBase.setRenderTarget t s
  | .bindGpuProgram prg => CoreThreadAccessorBase.bindGpuProgram prg s
  | .unbindGpuProgram g => CoreThreadAccessorBase.unbindGpuProgram g s
  | .bindGpuParams g ps => CoreThreadAccessorBase.bindGpuParams g ps s
  | .beginRender => CoreThreadAccessorBase.beginRender s
  | .endRender => CoreThreadAccessorBase.endRender s
  | .clearRenderTarget b c d st => CoreThreadAccessorBase.clearRenderTarget b c d st s
  | .clearViewport b c d st => CoreThreadAccessorBase.clearViewport b c d st s
  | .swapBuffers t => CoreThreadAccessorBase.swapBuffers t s
  | .render m o n u d => CoreThreadAccessorBase.render m o n u d s
  | .draw o n => CoreThreadAccessorBase.draw o n s
  | .drawIndexed si ic vo vc => CoreThreadAccessorBase.drawIndexed si ic vo vc s
  | .writeSubresource r i d discard =>
      (CoreThreadAccessorBase.writeSubresource r i d discard s).2
  | .readSubresource r i d => (CoreThreadAccessorBase.readSubresource r i d s).2
  | .resizeWindow w width height => CoreThreadAccessorBase.resizeWindow w width height s
  | .moveWindow w l t => CoreThreadAccessorBase.moveWindow w l t s
  | .hideWindow w => CoreThreadAccessorBase.hideWindow w s
  | .showWindow w => CoreThreadAccessorBase.showWindow w s
  | .setFullscreen w width height r m =>
      CoreThreadAccessorBase.setFullscreen w width height r m s
  | .setFullscreenMode w mode => CoreThreadAccessorBase.setFullscreenMode w mode s
  | .setWindowed w width height => CoreThreadAccessorBase.setWindowed w width height s
  | .queueReturnCommand f => (CoreThreadAccessorBase.queueReturnCommand f s).2
  | .queueCommand f => CoreThreadAccessorBase.queueCommand f s
  | .submitToCoreThread b => CoreThreadAccessorBase.submitToCoreThread b s
  | .cancelAll => CoreThreadAccessorBase.cancelAll s

/-- The calls that return an `AsyncOp`. -/
def returnsAsyncOp : AccessorCall → Bool
  | .writeSubresource .. => true
  | .readSubresource .. => true
  | .queueReturnCommand .. => true
  | _ => false

/-- The calls that queue a command without result: the render-system wrappers from
`disableTextureUnit` to `drawIndexed`, the window methods and `queueCommand`. -/
def isNoResult : AccessorCall → Bool
  | .writeSubresource .. => false
  | .readSubresource .. => false
  | .queueReturnCommand .. => false
  | .submitToCoreThread .. => false
  | .cancelAll => false
  | _ => true

/-- The calls that queue a command. -/
def queues (c : AccessorCall) : Bool :=
  c.isNoResult || c.returnsAsyncOp

/-- The command a call is expected to queue when it is made in state `s`: the method of
the same name (or the one it is renamed to) bound to the arguments of the call; for a
result-carrying call the sink is the `AsyncOp` allocated next, for `bindGpuParams` the
bound parameters are the object allocated next. -/
def command (c : AccessorCall) (s : World) : Option QueuedCommand :=
  match c with
  | .disableTextureUnit g u => some (.plain (.renderSystem (.disableTextureUnit g u)))
  | .setTexture g u e t => some (.plain (.renderSystem (.setTexture g u e t)))
  | .setSamplerState g u st => some (.plain (.renderSystem (.setSamplerState g u st)))
  | .setBlendState b => some (.plain (.renderSystem (.setBlendState b)))
  | .setRasterizerState r => some (.plain (.renderSystem (.setRasterizerState r)))
  | .setDepthStencilState d v => some (.plain (.renderSystem (.setDepthStencilState d v)))
  | .setViewport vp => some (.plain (.renderSystem (.setViewport vp)))
  | .setDrawOperation op => some (.plain (.renderSystem (.setDrawOperation op)))
  | .setClipPlanes ps => some (.plain (.renderSystem (.setClipPlanes ps)))
  | .addClipPlane p => some (.plain (.renderSystem (.addClipPlane p)))
  | .resetClipPlanes => some (.plain (.renderSystem .resetClipPlanes))
  | .setScissorTest l t r b => some (.plain (.renderSystem (.setScissorRect l t r b)))
  | .setRenderTarget t => some (.plain (.renderSystem (.setRenderTarget t)))
  | .bindGpuProgram prg => some (.plain (.renderSystem (.bindGpuProgram prg)))
  | .unbindGpuProgram g => some (.plain (.renderSystem (.unbindGpuProgram g)))
  | .bindGpuParams g _ => some (.plain (.renderSystem (.bindGpuParams g s.gpuParams.length)))
  | .beginRender => some (.plain (.renderSystem .beginFrame))
  | .endRender => some (.plain (.renderSystem .endFrame))
  | .clearRenderTarget b c d st =>
      some (.plain (.renderSystem (.clearRenderTarget b c d st)))
  | .clearViewport b c d st => some (.plain (.renderSystem (.clearViewport b c d st)))
  | .swapBuffers t => some (.plain (.renderSystem (.swapBuffers t)))
  | .render m o n u d => some (.plain (.renderSystem (.render m o n u d)))
  | .draw o n => some (.plain (.renderSystem (.draw o n)))
  | .drawIndexed si ic vo vc => some (.plain (.renderSystem (.drawIndexed si ic vo vc)))
  | .writeSubresource r i d discard =>
      some (.withReturn (.writeSubresource r i d discard) s.nextAsyncOp)
  | .readSubresource r i d => some (.withReturn (.readSubresource r i d) s.nextAsyncOp)
  | .resizeWindow w width height => some (.plain (.renderWindow w (.resize width height)))
  | .moveWindow w l t => some (.plain (.renderWindow w (.move l t)))
  | .hideWindow w => some (.plain (.renderWindow w (.setHidden true)))
  | .showWindow w => some (.plain (.renderWindow w (.setHidden false)))
  | .setFullscreen w width height r m =>
      some (.plain (.renderWindow w (.setFullscreen width height r m)))
  | .setFullscreenMode w mode => some (.plain (.renderWindowFullscreenRef w mode))
  | .setWindowed w width height =>
      some (.plain (.renderWindow w (.setWindowed width height)))
  | .queueReturnCommand f => some (.withReturn (.user f) s.nextAsyncOp)
  | .queueCommand f => some (.plain (.user f))
  | .submitToCoreThread _ => none
  | .cancelAll => none

end AccessorCall

/-- The state after a sequence of accessor calls, made in the order of the list. -/
def runCalls (cs : List AccessorCall) (s : World) : World :=
  cs.foldl (fun w c => c.run w) s

/-- The commands a sequence of calls is expected to queue, in the order of the calls, each
taken in the state in which its call is made. -/
def commandsOf : World → List AccessorCall → List QueuedCommand
  | _, [] => []
  | s, c :: cs => (c.command s).toList ++ commandsOf (c.run s) cs

/-- A step of the system: a call of the accessor on the simulation thread, or the core
thread running the oldest playback invocation it has accepted. -/
inductive Step where
  | call (c : AccessorCall)
  | coreRun
  deriving DecidableEq, Repr

/-- The state after a step. -/
def Step.run (st : Step) (s : World) : World :=
  match st with
  | .call c => c.run s
  | .coreRun => CoreThread.runNext s

/-- The state after a sequence of steps. -/
def runSteps (sts : List Step) (s : World) : World :=
  sts.foldl (fun w st => st.run w) s

/-! ## What a command does when it is invoked -/

namespace QueuedCommand

/-- The operation a command performs on the core thread, given the `VideoMode` variables of
the caller at that time. -/
def coreCall (videoModes : List VideoMode) : QueuedCommand → CoreCall
  | .plain (.renderSystem c) => .renderSystem c
  | .plain (.renderWindow w c) => .renderWindow w c
  | .plain (.renderWindowFullscreenRef w mode) =>
      .renderWindow w (.setFullscreenMode videoModes[mode]?)
  | .plain (.user f) => .user f
  | .withReturn (.writeSubresource r i d discard) op =>
      .renderSystem (.writeSubresource r i d discard op)
  | .withReturn (.readSubresource r i d) op => .renderSystem (.readSubresource r i d op)
  | .withReturn (.user f) op => .userReturn f op

end QueuedCommand

namespace CoreCall

/-- The `AsyncOp` an operation of the core thread completes, if any. -/
def completes : CoreCall → Option AsyncOp
  | .renderSystem (.writeSubresource _ _ _ _ op) => some op
  | .renderSystem (.readSubresource _ _ _ op) => some op
  | .userReturn _ op => some op
  | _ => none

/-- The data buffer an operation of the core thread unlocks, if any. -/
def unlocks : CoreCall → Option GpuResourceDataPtr
  | .renderSystem (.writeSubresource _ _ d _ _) => some d
  | .renderSystem (.readSubresource _ _ d _) => some d
  | _ => none

end CoreCall

/-- The commands that are queued or submitted and not yet executed, in the order in which
the core thread will execute them: the accepted batches, oldest first, then the commands
still in the accessor's queue. -/
def World.pending (s : World) : List QueuedCommand :=
  s.coreQueue.flatMap s.batch ++ s.mCommands

/-- The viewport a core-thread operation puts into effect, if it is a `setViewport`. -/
def CoreCall.viewport? : CoreCall → Option Viewport
  | .renderSystem (.setViewport vp) => some vp
  | _ => none

/-- The viewport in effect after a trace of core-thread operations: the argument of the
latest `setViewport`. -/
def activeViewport (trace : List CoreCall) : Option Viewport :=
  (trace.filterMap CoreCall.viewport?).getLast?

/-- The scenario of two draws with a viewport each, followed by a submit. -/
def viewportScenario (v1 v2 : Viewport) (blockUntilComplete : Bool) (s : World) : World :=
  CoreThreadAccessorBase.submitToCoreThread blockUntilComplete
    (CoreThreadAccessorBase.draw 3 3
      (CoreThreadAccessorBase.setViewport v2
        (CoreThreadAccessorBase.draw 0 3
          (CoreThreadAccessorBase.setViewport v1 s))))

/-- The `AsyncOp` a command completes when it is invoked, if any: the sink of a
result-carrying command. -/
def QueuedCommand.asyncOp? : QueuedCommand → Option AsyncOp
  | .plain (.renderSystem (.writeSubresource _ _ _ _ op)) => some op
  | .plain (.renderSystem (.readSubresource _ _ _ op)) => some op
  | .plain _ => none
  | .withReturn _ op => some op

/-- The `AsyncOp`s that were completed or are the sink of a command not yet executed. -/
def World.asyncOpsInUse (s : World) : List AsyncOp :=
  s.completed ++ s.pending.filterMap QueuedCommand.asyncOp?

/-- The states the bookkeeping of the queue can be in: every invocation the executor holds
refers to a detached buffer; no `AsyncOp` is both completed and still the sink of a command,
or completed twice, or the sink of two commands; and every `AsyncOp` in use was allocated. -/
def World.Consistent (s : World) : Prop :=
  (∀ k ∈ s.coreQueue, k < s.batches.length) ∧
    s.asyncOpsInUse.Nodup ∧
    (∀ op ∈ s.asyncOpsInUse, op < s.nextAsyncOp)

instance (s : World) : Decidable s.Consistent := by
  unfold World.Consistent
  infer_instance

/-- The `AsyncOp` handle a call of the accessor returns, for the methods that return one. -/
def AccessorCall.result (c : AccessorCall) (s : World) : Option AsyncOp :=
  match c with
  | .writeSubresource r i d discard =>
      some (CoreThreadAccessorBase.writeSubresource r i d discard s).1
  | .readSubresource r i d => some (CoreThreadAccessorBase.readSubresource r i d s).1
  | .queueReturnCommand f => some (CoreThreadAccessorBase.queueReturnCommand f s).1
  | _ => none

/-- The `AsyncOp` `op` was allocated and `cmd` is the only command not yet executed whose
sink it is. -/
def World.Owns (s : World) (op : AsyncOp) (cmd : QueuedCommand) : Prop :=
  op < s.nextAsyncOp ∧ ∀ c ∈ s.pending, c.asyncOp? = some op → c = cmd

/-- The locked buffers after a trace of core-thread operations: every operation that unlocks
a buffer removes it. -/
def unlockAll (calls : List CoreCall) (locked : List GpuResourceDataPtr) :
    List GpuResourceDataPtr :=
  calls.foldl
    (fun l c => match c.unlocks with
      | some d => l.filter (fun x => x != d)
      | none => l)
    locked

/-! ## Cancellation, captured arguments and replay -/

/-- The caller assigns a new value to one of its `VideoMode` variables. -/
def callerAssignsVideoMode (mode : VideoModeRef) (value : VideoMode) (s : World) : World :=
  { s with videoModes := s.videoModes.set mode value }

/-- The caller leaves the scope of its `VideoMode` variable `mode`: this variable and the
ones declared after it are gone. -/
def callerReleasesVideoMode (mode : VideoModeRef) (s : World) : World :=
  { s with videoModes := s.videoModes.take mode }

/-- The caller changes the contents of one of its `GpuParams` objects. -/
def callerWritesGpuParams (params : GpuParamsPtr) (value : Nat) (s : World) : World :=
  { s with gpuParams := s.gpuParams.set params value }

/-- The commands a call of the accessor adds to the queue when it is made in state `s`. -/
def AccessorCall.queued (c : AccessorCall) (s : World) : List QueuedCommand :=
  (c.run s).mCommands.drop s.mCommands.length

/-- The operations performed on the core thread when the commands that the call `c` queued
in state `s` are invoked in state `w`. -/
def AccessorCall.replay (c : AccessorCall) (s w : World) : List CoreCall :=
  (CommandQueueBase.invokeAll (c.queued s) w).coreTrace.drop w.coreTrace.length

/-- The render-system wrappers without result, from `disableTextureUnit` to `drawIndexed`. -/
def AccessorCall.isRenderSystemWrapper : AccessorCall → Bool
  | .disableTextureUnit .. => true
  | .setTexture .. => true
  | .setSamplerState .. => true
  | .setBlendState .. => true
  | .setRasterizerState .. => true
  | .setDepthStencilState .. => true
  | .setViewport .. => true
  | .setDrawOperation .. => true
  | .setClipPlanes .. => true
  | .addClipPlane .. => true
  | .resetClipPlanes => true
  | .setScissorTest .. => true
  | .setRenderTarget .. => true
  | .bindGpuProgram .. => true
  | .unbindGpuProgram .. => true
  | .bindGpuParams .. => true
  | .beginRender => true
  | .endRender => true
  | .clearRenderTarget .. => true
  | .clearViewport .. => true
  | .swapBuffers .. => true
  | .render .. => true
  | .draw .. => true
  | .drawIndexed .. => true
  | _ => false

/-- Following the words of the specification, not the source: the render-system operation
of the same name as a wrapper, with the wrapper's arguments in the same order, where
`setScissorTest` maps to `setScissorRect`, `beginRender` to `beginFrame` and `endRender` to
`endFrame`. -/
def AccessorCall.sameNameCall : AccessorCall → Option RenderSystemCall
  | .disableTextureUnit g u => some (.disableTextureUnit g u)
  | .setTexture g u e t => some (.setTexture g u e t)
  | .setSamplerState g u st => some (.setSamplerState g u st)
  | .setBlendState b => some (.setBlendState b)
  | .setRasterizerState r => some (.setRasterizerState r)
  | .setDepthStencilState d v => some (.setDepthStencilState d v)
  | .setViewport vp => some (.setViewport vp)
  | .setDrawOperation op => some (.setDrawOperation op)
  | .setClipPlanes ps => some (.setClipPlanes ps)
  | .addClipPlane p => some (.addClipPlane p)
  | .resetClipPlanes => some .resetClipPlanes
  | .setScissorTest l t r b => some (.setScissorRect l t r b)
  | .setRenderTarget t => some (.setRenderTarget t)
  | .bindGpuProgram prg => some (.bindGpuProgram prg)
  | .unbindGpuProgram g => some (.unbindGpuProgram g)
  | .bindGpuParams g ps => some (.bindGpuParams g ps)
  | .beginRender => some .beginFrame
  | .endRender => some .endFrame
  | .clearRenderTarget b c d st => some (.clearRenderTarget b c d st)
  | .clearViewport b c d st => some (.clearViewport b c d st)
  | .swapBuffers t => some (.swapBuffers t)
  | .render m o n u d => some (.render m o n u d)
  | .draw o n => some (.draw o n)
  | .drawIndexed si ic vo vc => some (.drawIndexed si ic vo vc)
  | _ => none

/-- Whether a call is a `submitToCoreThread`. -/
def AccessorCall.isSubmit : AccessorCall → Bool
  | .submitToCoreThread _ => true
  | _ => false

/-- Whether the object a call without result dereferences when it is made is live: only
`bindGpuParams` dereferences an argument, `params`, on the calling thread; the other
methods only bind their arguments. -/
def AccessorCall.paramsLive (c : AccessorCall) (s : World) : Bool :=
  match c with
  | .bindGpuParams _ params => decide (params < s.gpuParams.length)
  | _ => true

/-- A state with work in flight: one `GpuParams` object and one `VideoMode` variable of the
caller, a draw and a subresource write in the queue, the data buffer of the write locked. -/
def World.withQueuedWork : World :=
  (CoreThreadAccessorBase.writeSubresource 1 0 5 false
    (CoreThreadAccessorBase.draw 0 3
      { World.init with gpuParams := [7], videoModes := [1280] })).2

/-- The `AsyncOp` `op` is not completed and is the sink of no command in a batch that the
executor holds: if a command is to complete it, that command has not been submitted. -/
def World.NotSubmitted (s : World) (op : AsyncOp) : Prop :=
  op ∉ s.completed ∧
    ∀ x ∈ s.coreQueue.flatMap (fun k => s.batches.getD k []), x.asyncOp? ≠ some op

/-! ## Playback with failing commands -/

/-- Modelled from the spec: invoking a sequence of commands of which some fail, as
`CommandQueueBase::playback`, which is not among the translated sources, is specified to do
it: a command for which `fails` holds raises an error when it is invoked; the fault is
isolated to this command, which leaves the state as it was and is reported on a per-command
error channel, the second component of the result; playback continues with the next
command. -/
def CommandQueueBase.invokeAllIsolating (fails : QueuedCommand → Bool) :
    List QueuedCommand → World → World × List QueuedCommand
  | [], s => (s, [])
  | cmd :: rest, s =>
    if fails cmd then
      ((invokeAllIsolating fails rest s).1, cmd :: (invokeAllIsolating fails rest s).2)
    else invokeAllIsolating fails rest (cmd.execute s)

/-- A fault: the callback `f` of the caller, queued with `queueCommand`, raises an error
whenever it is invoked; no other command fails. -/
def failsUserCallback (f : UserCallback) (cmd : QueuedCommand) : Bool :=
  decide (cmd = .plain (.user f))

/-- Modelled from the spec: `CommandQueueBase::playback` of a detached buffer of which some
commands fail. -/
def CommandQueueBase.playbackIsolating (fails : QueuedCommand → Bool) (commands : QueuePtr)
    (s : World) : World × List QueuedCommand :=
  CommandQueueBase.invokeAllIsolating fails (s.batch commands) s

/-! ## The built-in material factory for Direct3D 11

`D3D11BuiltinMaterialFactory` (`BansheeEngine/Source/BsD3D11BuiltinMaterialFactory.cpp`).
The objects the factory builds (programs, shaders, techniques, passes, states, materials)
are records of what they were created with and of the calls made on them; the enumerations
and descriptor structures are declared elsewhere, so an enumeration has the enumerators the
factory names and the fields a descriptor starts with are a parameter. -/

/-- The texture filter options the factory names. -/
inductive FilterOptions where
  | FO_POINT
  | other (code : Nat)
  deriving DecidableEq, Repr

/-- The GPU program types the factory names. -/
inductive GpuProgramKind where
  | GPT_VERTEX_PROGRAM
  | GPT_FRAGMENT_PROGRAM
  deriving DecidableEq, Repr

/-- The GPU program profiles the factory names. -/
inductive GpuProgramProfile where
  | GPP_VS_4_0
  | GPP_PS_4_0
  deriving DecidableEq, Repr

/-- The types of shader parameters the factory names: data parameters (`GPDT_`) and object
parameters (`GPOT_`). -/
inductive GpuParamType where
  | GPDT_FLOAT1
  | GPDT_FLOAT4
  | GPDT_MATRIX_4X4
  | GPOT_SAMPLER2D
  | GPOT_TEXTURE2D
  deriving DecidableEq, Repr

/-- The blend factors the factory names. -/
inductive BlendFactor where
  | BF_SOURCE_ALPHA
  | BF_INV_SOURCE_ALPHA
  | other (code : Nat)
  deriving DecidableEq, Repr

/-- The blend operations the factory names. -/
inductive BlendOperation where
  | BO_ADD
  | other (code : Nat)
  deriving DecidableEq, Repr

/-- The HLSL source literals of the factory, by the function and the variable that holds
them; the text itself is not needed here. -/
inductive HlslSource where
  | spriteTextVs
  | spriteTextPs
  | spriteImageVs
  | spriteImagePs
  | debugDraw2DClipSpaceVs
  | debugDraw2DClipSpacePs
  | debugDraw2DScreenSpaceVs
  | debugDraw2DScreenSpacePs
  | debugDraw3DVs
  | debugDraw3DPs
  | dockDropOverlayVs
  | dockDropOverlayPs
  | dummyVs
  | dummyPs
  deriving DecidableEq, Repr

/-- The fields of `SAMPLER_STATE_DESC` the factory sets, and the rest of the descriptor. -/
structure SAMPLER_STATE_DESC where
  minFilter : FilterOptions
  magFilter : FilterOptions
  mipFilter : FilterOptions
  rest : Nat
  deriving DecidableEq, Repr

/-- The fields of `BLEND_STATE_DESC` the factory sets, all of `renderTargetDesc[0]`, and the
rest of the descriptor. -/
structure BLEND_STATE_DESC where
  blendEnable : Bool
  srcBlend : BlendFactor
  dstBlend : BlendFactor
  blendOp : BlendOperation
  renderTargetWriteMask : Nat
  rest : Nat
  deriving DecidableEq, Repr

/-- The fields of `DEPTH_STENCIL_STATE_DESC` the factory sets, and the rest of the
descriptor. -/
structure DEPTH_STENCIL_STATE_DESC where
  depthReadEnable : Bool
  depthWriteEnable : Bool
  rest : Nat
  deriving DecidableEq, Repr

/-- What the factory takes from its surroundings: the name of the core renderer and the
default-constructed descriptors. -/
structure FactoryEnv where
  coreRendererName : String
  defaultSamplerDesc : SAMPLER_STATE_DESC
  defaultBlendDesc : BLEND_STATE_DESC
  defaultDepthStencilDesc : DEPTH_STENCIL_STATE_DESC
  deriving DecidableEq, Repr

/-- A sampler state, as created by `SamplerState::create(desc)`. -/
structure SamplerState where
  desc : SAMPLER_STATE_DESC
  deriving DecidableEq, Repr

/-- A blend state, as created by `BlendState::create(desc)`. -/
structure BlendState where
  desc : BLEND_STATE_DESC
  deriving DecidableEq, Repr

/-- A depth-stencil state, as created by `DepthStencilState::create(desc)`. -/
structure DepthStencilState where
  desc : DEPTH_STENCIL_STATE_DESC
  deriving DecidableEq, Repr

/-- A GPU program, as created by `GpuProgram::create(source, entryPoint, language, gptype,
profile)`, and whether `synchronize()` was called on its handle. -/
structure GpuProgram where
  source : HlslSource
  entryPoint : String
  language : String
  gptype : GpuProgramKind
  profile : GpuProgramProfile
  synchronized : Bool
  deriving DecidableEq, Repr

/-- The call `handle.synchronize()`. -/
def GpuProgram.synchronize (p : GpuProgram) : GpuProgram :=
  { p with synchronized := true }

/-- A pass of a technique: the programs and states set on it. -/
structure Pass where
  vertexProgram : Option GpuProgram
  fragmentProgram : Option GpuProgram
  blendState : Option BlendState
  depthStencilState : Option DepthStencilState
  deriving DecidableEq, Repr

/-- A technique, as added by `addTechnique(renderSystem, renderer)`, with its passes. -/
structure Technique where
  renderSystem : String
  renderer : String
  passes : List Pass
  deriving DecidableEq, Repr

/-- A shader parameter, as added by `addParameter(name, gpuVariableName, type)`. -/
structure ShaderParameter where
  name : String
  gpuVariableName : String
  type : GpuParamType
  deriving DecidableEq, Repr

/-- A shader, as created by `Shader::create(name)`, with the parameters and techniques added
to it, in the order of the calls. -/
structure Shader where
  name : String
  parameters : List ShaderParameter
  techniques : List Technique
  deriving DecidableEq, Repr

/-- A material: the shader handle it was created from (`none` for a null handle) and the
`setSamplerState(name, state)` calls made on it, in order. -/
structure Material where
  shader : Option Shader
  samplerStates : List (String × Option SamplerState)
  deriving DecidableEq, Repr

/-- The call `Material::create(shader)`. -/
def Material.create (shader : Option Shader) : Material :=
  { shader := shader, samplerStates := [] }

/-- The call `material->setSamplerState(name, samplerState)`. -/
def Material.setSamplerState (name : String) (samplerState : Option SamplerState)
    (m : Material) : Material :=
  { m with samplerStates := m.samplerStates ++ [(name, samplerState)] }

/-- The members of `D3D11BuiltinMaterialFactory`; `none` is a null handle. -/
structure D3D11BuiltinMaterialFactory where
  mSpriteTextShader : Option Shader
  mSpriteImageShader : Option Shader
  mDebugDraw2DClipSpaceShader : Option Shader
  mDebugDraw2DScreenSpaceShader : Option Shader
  mDebugDraw3DShader : Option Shader
  mDockDropOverlayShader : Option Shader
  mDummyShader : Option Shader
  mGUISamplerState : Option SamplerState
  deriving DecidableEq, Repr

namespace D3D11BuiltinMaterialFactory

/-- A factory before `startUp`: every handle is null. -/
def empty : D3D11BuiltinMaterialFactory :=
  { mSpriteTextShader := none, mSpriteImageShader := none,
    mDebugDraw2DClipSpaceShader := none, mDebugDraw2DScreenSpaceShader := none,
    mDebugDraw3DShader := none, mDockDropOverlayShader := none, mDummyShader := none,
    mGUISamplerState := none }

/-- The two programs every init function creates and synchronizes: `vs_main` and `ps_main`
in HLSL, with the profiles `GPP_VS_4_0` and `GPP_PS_4_0`. -/
def programs (vsCode psCode : HlslSource) : GpuProgram × GpuProgram :=
  ((GpuProgram.mk vsCode "vs_main" "hlsl" .GPT_VERTEX_PROGRAM .GPP_VS_4_0 false).synchronize,
    (GpuProgram.mk psCode "ps_main" "hlsl" .GPT_FRAGMENT_PROGRAM .GPP_PS_4_0 false).synchronize)

/-- The blend descriptor the init functions fill in: alpha blending of the first render
target. -/
def alphaBlendDesc (env : FactoryEnv) : BLEND_STATE_DESC :=
  { env.defaultBlendDesc with
    blendEnable := true
    srcBlend := .BF_SOURCE_ALPHA
    dstBlend := .BF_INV_SOURCE_ALPHA
    blendOp := .BO_ADD }

/-- The depth-stencil descriptor the init functions fill in: no depth read, no depth
write. -/
def noDepthDesc (env : FactoryEnv) : DEPTH_STENCIL_STATE_DESC :=
  { env.defaultDepthStencilDesc with
    depthReadEnable := false
    depthWriteEnable := false }

/-- The one technique with one pass every init function adds, for `D3D11RenderSystem` and
the core renderer. -/
def technique (env : FactoryEnv) (pass : Pass) : Technique :=
  { renderSystem := "D3D11RenderSystem", renderer := env.coreRendererName, passes := [pass] }

/-- Source: `D3D11BuiltinMaterialFactory::initSpriteTextShader`. -/
def initSpriteTextShader (env : FactoryEnv) (f : D3D11BuiltinMaterialFactory) :
    D3D11BuiltinMaterialFactory :=
  let p := programs .spriteTextVs .spriteTextPs
  let shader : Shader :=
    { name := "TextSpriteShader"
      parameters :=
        [⟨"worldTransform", "worldTransform", .GPDT_MATRIX_4X4⟩,
          ⟨"invViewportWidth", "invViewportWidth", .GPDT_FLOAT1⟩,
          ⟨"invViewportHeight", "invViewportHeight", .GPDT_FLOAT1⟩,
          ⟨"mainTexSamp", "mainTexSamp", .GPOT_SAMPLER2D⟩,
          ⟨"mainTexture", "mainTexture", .GPOT_TEXTURE2D⟩,
          ⟨"tint", "tint", .GPDT_FLOAT4⟩]
      techniques := [technique env
        { vertexProgram := some p.1
          fragmentProgram := some p.2
          blendState := some ⟨{ alphaBlendDesc env with renderTargetWriteMask := 0x7 }⟩
          depthStencilState := some ⟨noDepthDesc env⟩ }] }
  { f with mSpriteTextShader := some shader }

/-- Source: `D3D11BuiltinMaterialFactory::initSpriteImageShader`. -/
def initSpriteImageShader (env : FactoryEnv) (f : D3D11BuiltinMaterialFactory) :
    D3D11BuiltinMaterialFactory :=
  let p := programs .spriteImageVs .spriteImagePs
  let shader : Shader :=
    { name := "ImageSpriteShader"
      parameters :=
        [⟨"worldTransform", "worldTransform", .GPDT_MATRIX_4X4⟩,
          ⟨"invViewportWidth", "invViewportWidth", .GPDT_FLOAT1⟩,
          ⟨"invViewportHeight", "invViewportHeight", .GPDT_FLOAT1⟩,
          ⟨"mainTexSamp", "mainTexSamp", .GPOT_SAMPLER2D⟩,
          ⟨"mainTexture", "mainTexture", .GPOT_TEXTURE2D⟩,
          ⟨"tint", "tint", .GPDT_FLOAT4⟩]
      techniques := [technique env
        { vertexProgram := some p.1
          fragmentProgram := some p.2
          blendState := some ⟨{ alphaBlendDesc env with renderTargetWriteMask := 0x7 }⟩
          depthStencilState := some ⟨noDepthDesc env⟩ }] }
  { f with mSpriteImageShader := some shader }

/-- Source: `D3D11BuiltinMaterialFactory::initDebugDraw2DClipSpaceShader`. -/
def initDebugDraw2DClipSpaceShader (env : FactoryEnv) (f : D3D11BuiltinMaterialFactory) :
    D3D11BuiltinMaterialFactory :=
  let p := programs .debugDraw2DClipSpaceVs .debugDraw2DClipSpacePs
  let shader : Shader :=
    { name := "DebugDraw2DClipSpaceShader"
      parameters := []
      techniques := [technique env
        { vertexProgram := some p.1
          fragmentProgram := some p.2
          blendState := some ⟨alphaBlendDesc env⟩
          depthStencilState := some ⟨noDepthDesc env⟩ }] }
  { f with mDebugDraw2DClipSpaceShader := some shader }

/-- Source: `D3D11BuiltinMaterialFactory::initDebugDraw2DScreenSpaceShader`. -/
def initDebugDraw2DScreenSpaceShader (env : FactoryEnv) (f : D3D11BuiltinMaterialFactory) :
    D3D11BuiltinMaterialFactory :=
  let p := programs .debugDraw2DScreenSpaceVs .debugDraw2DScreenSpacePs
  let shader : Shader :=
    { name := "DebugDraw2DScreenSpaceShader"
      parameters :=
        [⟨"invViewportWidth", "invViewportWidth", .GPDT_FLOAT1⟩,
          ⟨"invViewportHeight", "invViewportHeight", .GPDT_FLOAT1⟩]
      techniques := [technique env
        { vertexProgram := some p.1
          fragmentProgram := some p.2
          blendState := some ⟨alphaBlendDesc env⟩
          depthStencilState := some ⟨noDepthDesc env⟩ }] }
  { f with mDebugDraw2DScreenSpaceShader := some shader }

/-- Source: `D3D11BuiltinMaterialFactory::initDebugDraw3DShader`; no depth-stencil state is
set. -/
def initDebugDraw3DShader (env : FactoryEnv) (f : D3D11BuiltinMaterialFactory) :
    D3D11BuiltinMaterialFactory :=
  let p := programs .debugDraw3DVs .debugDraw3DPs
  let shader : Shader :=
    { name := "DebugDraw3DShader"
      parameters := [⟨"matViewProj", "matViewProj", .GPDT_MATRIX_4X4⟩]
      techniques := [technique env
        { vertexProgram := some p.1
          fragmentProgram := some p.2
          blendState := some ⟨alphaBlendDesc env⟩
          depthStencilState := none }] }
  { f with mDebugDraw3DShader := some shader }

/-- Source: `D3D11BuiltinMaterialFactory::initDockDropOverlayShader`. -/
def initDockDropOverlayShader (env : FactoryEnv) (f : D3D11BuiltinMaterialFactory) :
    D3D11BuiltinMaterialFactory :=
  let p := programs .dockDropOverlayVs .dockDropOverlayPs
  let shader : Shader :=
    { name := "DockDropOverlayShader"
      parameters :=
        [⟨"invViewportWidth", "invViewportWidth", .GPDT_FLOAT1⟩,
          ⟨"invViewportHeight", "invViewportHeight", .GPDT_FLOAT1⟩,
          ⟨"tintColor", "tintColor", .GPDT_FLOAT4⟩,
          ⟨"highlightColor", "highlightColor", .GPDT_FLOAT4⟩,
          ⟨"highlightActive", "highlightActive", .GPDT_FLOAT4⟩]
      techniques := [technique env
        { vertexProgram := some p.1
          fragmentProgram := some p.2
          blendState := some ⟨alphaBlendDesc env⟩
          depthStencilState := some ⟨noDepthDesc env⟩ }] }
  { f with mDockDropOverlayShader := some shader }

/-- Source: `D3D11BuiltinMaterialFactory::initDummyShader`; neither a blend state nor a
depth-stencil state is set. -/
def initDummyShader (env : FactoryEnv) (f : D3D11BuiltinMaterialFactory) :
    D3D11BuiltinMaterialFactory :=
  let p := programs .dummyVs .dummyPs
  let shader : Shader :=
    { name := "DummyShader"
      parameters := [⟨"matWorldViewProj", "matWorldViewProj", .GPDT_MATRIX_4X4⟩]
      techniques := [technique env
        { vertexProgram := some p.1
          fragmentProgram := some p.2
          blendState := none
          depthStencilState := none }] }
  { f with mDummyShader := some shader }

/-- Source: `D3D11BuiltinMaterialFactory::startUp`. -/
def startUp (env : FactoryEnv) (f : D3D11BuiltinMaterialFactory) :
    D3D11BuiltinMaterialFactory :=
  let f1 := initSpriteTextShader env f
  let f2 := initSpriteImageShader env f1
  let f3 := initDebugDraw2DClipSpaceShader env f2
  let f4 := initDebugDraw2DScreenSpaceShader env f3
  let f5 := initDebugDraw3DShader env f4
  let f6 := initDockDropOverlayShader env f5
  let f7 := initDummyShader env f6
  let ssDesc : SAMPLER_STATE_DESC :=
    { env.defaultSamplerDesc with
      magFilter := .FO_POINT
      minFilter := .FO_POINT
      mipFilter := .FO_POINT }
  { f7 with mGUISamplerState := some ⟨ssDesc⟩ }

/-- Source: `D3D11BuiltinMaterialFactory::shutDown`. -/
def shutDown (f : D3D11BuiltinMaterialFactory) : D3D11BuiltinMaterialFactory :=
  { f with
    mSpriteTextShader := none
    mSpriteImageShader := none
    mDebugDraw2DClipSpaceShader := none
    mDebugDraw2DScreenSpaceShader := none
    mDebugDraw3DShader := none
    mDockDropOverlayShader := none
    mDummyShader := none }

/-- Source: `D3D11BuiltinMaterialFactory::createSpriteTextMaterial`. -/
def createSpriteTextMaterial (f : D3D11BuiltinMaterialFactory) : Material :=
  (Material.create f.mSpriteTextShader).setSamplerState "mainTexSamp" f.mGUISamplerState

/-- Source: `D3D11BuiltinMaterialFactory::createSpriteImageMaterial`. -/
def createSpriteImageMaterial (f : D3D11BuiltinMaterialFactory) : Material :=
  (Material.create f.mSpriteImageShader).setSamplerState "mainTexSamp" f.mGUISamplerState

/-- Source: `D3D11BuiltinMaterialFactory::createDebugDraw2DClipSpaceMaterial`. -/
def createDebugDraw2DClipSpaceMaterial (f : D3D11BuiltinMaterialFactory) : Material :=
  Material.create f.mDebugDraw2DClipSpaceShader

/-- Source: `D3D11BuiltinMaterialFactory::createDebugDraw2DScreenSpaceMaterial`. -/
def createDebugDraw2DScreenSpaceMaterial (f : D3D11BuiltinMaterialFactory) : Material :=
  Material.create f.mDebugDraw2DScreenSpaceShader

/-- Source: `D3D11BuiltinMaterialFactory::createDebugDraw3DMaterial`. -/
def createDebugDraw3DMaterial (f : D3D11BuiltinMaterialFactory) : Material :=
  Material.create f.mDebugDraw3DShader

/-- Source: `D3D11BuiltinMaterialFactory::createDockDropOverlayMaterial`. -/
def createDockDropOverlayMaterial (f : D3D11BuiltinMaterialFactory) : Material :=
  Material.create f.mDockDropOverlayShader

/-- Source: `D3D11BuiltinMaterialFactory::createDummyMaterial`. -/
def createDummyMaterial (f : D3D11BuiltinMaterialFactory) : Material :=
  Material.create f.mDummyShader

end D3D11BuiltinMaterialFactory

/-! ## Invoking commands -/

theorem QueuedCommand.execute_eq (cmd : QueuedCommand) (s : World) :
    cmd.execute s =
      { s with
        coreTrace := s.coreTrace ++ [cmd.coreCall s.videoModes]
        locked := unlockAll [cmd.coreCall s.videoModes] s.locked
        completed := s.completed ++ (cmd.coreCall s.videoModes).completes.toList } := by
  rcases cmd with cb | ⟨cb, op⟩
  · cases cb with
    | renderSystem c =>
      cases c <;>
        simp [QueuedCommand.execute, QueuedCommand.coreCall, RenderSystem.call,
          AsyncOp._completeOperation, GpuResourceData._unlock, CoreCall.completes,
          CoreCall.unlocks, unlockAll]
    | renderWindow w c =>
      simp [QueuedCommand.execute, QueuedCommand.coreCall, RenderWindow.call,
        CoreCall.completes, CoreCall.unlocks, unlockAll]
    | renderWindowFullscreenRef w m =>
      simp [QueuedCommand.execute, QueuedCommand.coreCall, RenderWindow.call,
        CoreCall.completes, CoreCall.unlocks, unlockAll]
    | user f =>
      simp [QueuedCommand.execute, QueuedCommand.coreCall, CoreCall.completes,
        CoreCall.unlocks, unlockAll]
  · cases cb <;>
      simp [QueuedCommand.execute, QueuedCommand.coreCall, RenderSystem.call,
        AsyncOp._completeOperation, GpuResourceData._unlock, CoreCall.completes,
        CoreCall.unlocks, unlockAll]

theorem unlockAll_append (xs ys : List CoreCall) (l : List GpuResourceDataPtr) :
    unlockAll (xs ++ ys) l = unlockAll ys (unlockAll xs l) := by
  simp [unlockAll, List.foldl_append]

theorem CommandQueueBase.invokeAll_eq (cmds : List QueuedCommand) (s : World) :
    CommandQueueBase.invokeAll cmds s =
      { s with
        coreTrace := s.coreTrace ++ cmds.map (QueuedCommand.coreCall s.videoModes)
        locked := unlockAll (cmds.map (QueuedCommand.coreCall s.videoModes)) s.locked
        completed := s.completed ++
          (cmds.map (QueuedCommand.coreCall s.videoModes)).filterMap CoreCall.completes } := by
  induction cmds generalizing s with
  | nil => simp [CommandQueueBase.invokeAll, unlockAll]
  | cons c cs ih =>
    have h : CommandQueueBase.invokeAll (c :: cs) s
        = CommandQueueBase.invokeAll cs (c.execute s) := rfl
    rw [h, ih, QueuedCommand.execute_eq]
    cases hc : (QueuedCommand.coreCall s.videoModes c).completes <;>
      simp [unlockAll, hc]

theorem CommandQueueBase.invokeAll_append (xs ys : List QueuedCommand) (s : World) :
    CommandQueueBase.invokeAll (xs ++ ys) s
      = CommandQueueBase.invokeAll ys (CommandQueueBase.invokeAll xs s) := by
  simp [CommandQueueBase.invokeAll, List.foldl_append]

theorem CoreThread.foldl_playback (ks : List QueuePtr) (s : World) :
    ks.foldl (fun w commands => CommandQueueBase.playback commands w) s
      = CommandQueueBase.invokeAll (ks.flatMap s.batch) s := by
  induction ks generalizing s with
  | nil => simp [CommandQueueBase.invokeAll]
  | cons k ks ih =>
    have hb : (CommandQueueBase.playback k s).batch = s.batch := by
      funext j
      simp [CommandQueueBase.playback, CommandQueueBase.invokeAll_eq, World.batch]
    simp only [List.foldl_cons, ih, hb, List.flatMap_cons,
      CommandQueueBase.invokeAll_append]
    rfl

theorem CoreThread.runAll_eq (s : World) :
    CoreThread.runAll s
      = CommandQueueBase.invokeAll (s.coreQueue.flatMap s.batch) { s with coreQueue := [] } := by
  unfold CoreThread.runAll
  rw [CoreThread.foldl_playback]
  rfl

/-! ## Queueing calls -/

theorem runCalls_append (xs ys : List AccessorCall) (s : World) :
    runCalls (xs ++ ys) s = runCalls ys (runCalls xs s) := by
  simp [runCalls, List.foldl_append]

theorem runCalls_cons (c : AccessorCall) (cs : List AccessorCall) (s : World) :
    runCalls (c :: cs) s = runCalls cs (c.run s) := rfl

theorem AccessorCall.run_mCommands_of_queues (c : AccessorCall) (s : World)
    (h : c.queues = true) :
    (c.run s).mCommands = s.mCommands ++ (c.command s).toList := by
  cases c <;>
    simp_all [AccessorCall.queues, AccessorCall.isNoResult, AccessorCall.returnsAsyncOp,
      AccessorCall.run, AccessorCall.command, CommandQueueBase.queue, CommandQueueBase.queueReturn,
      GpuResourceData._lock, GpuResource._writeSubresourceSim, GpuParams._cloneForCore]

theorem AccessorCall.command_isSome_of_queues (c : AccessorCall) (s : World)
    (h : c.queues = true) : ∃ cmd, c.command s = some cmd := by
  cases c <;>
    simp_all [AccessorCall.queues, AccessorCall.isNoResult, AccessorCall.returnsAsyncOp,
      AccessorCall.command]

theorem AccessorCall.run_core_of_queues (c : AccessorCall) (s : World)
    (h : c.queues = true) :
    (c.run s).batches = s.batches ∧ (c.run s).coreQueue = s.coreQueue ∧
      (c.run s).coreTrace = s.coreTrace ∧ (c.run s).completed = s.completed ∧
      (c.run s).videoModes = s.videoModes := by
  cases c <;>
    simp_all [AccessorCall.queues, AccessorCall.isNoResult, AccessorCall.returnsAsyncOp,
      AccessorCall.run, CommandQueueBase.queue, CommandQueueBase.queueReturn,
      GpuResourceData._lock, GpuResource._writeSubresourceSim, GpuParams._cloneForCore]

theorem runCalls_mCommands_of_queues (cs : List AccessorCall) (s : World)
    (h : ∀ c ∈ cs, c.queues = true) :
    (runCalls cs s).mCommands = s.mCommands ++ commandsOf s cs := by
  induction cs generalizing s with
  | nil => simp [runCalls, commandsOf]
  | cons c cs ih =>
    rw [runCalls_cons, ih (c.run s) (fun x hx => h x (List.mem_cons_of_mem _ hx)),
      AccessorCall.run_mCommands_of_queues c s (h c (List.mem_cons_self _ _))]
    simp [commandsOf]

theorem runCalls_core_of_queues (cs : List AccessorCall) (s : World)
    (h : ∀ c ∈ cs, c.queues = true) :
    (runCalls cs s).batches = s.batches ∧ (runCalls cs s).coreQueue = s.coreQueue ∧
      (runCalls cs s).coreTrace = s.coreTrace ∧ (runCalls cs s).completed = s.completed ∧
      (runCalls cs s).videoModes = s.videoModes := by
  induction cs generalizing s with
  | nil => simp [runCalls]
  | cons c cs ih =>
    have h1 := AccessorCall.run_core_of_queues c s (h c (List.mem_cons_self _ _))
    have h2 := ih (c.run s) (fun x hx => h x (List.mem_cons_of_mem _ hx))
    rw [runCalls_cons]
    exact ⟨h2.1.trans h1.1, h2.2.1.trans h1.2.1, h2.2.2.1.trans h1.2.2.1,
      h2.2.2.2.1.trans h1.2.2.2.1, h2.2.2.2.2.trans h1.2.2.2.2⟩

theorem commandsOf_length_of_queues (cs : List AccessorCall) (s : World)
    (h : ∀ c ∈ cs, c.queues = true) : (commandsOf s cs).length = cs.length := by
  induction cs generalizing s with
  | nil => simp [commandsOf]
  | cons c cs ih =>
    obtain ⟨cmd, hcmd⟩ :=
      AccessorCall.command_isSome_of_queues c s (h c (List.mem_cons_self _ _))
    simp [commandsOf, hcmd, ih (c.run s) (fun x hx => h x (List.mem_cons_of_mem _ hx))]

theorem commandsOf_getElem?_of_queues (cs : List AccessorCall) (s : World)
    (h : ∀ c ∈ cs, c.queues = true) (i : Nat) (c : AccessorCall) (hc : cs[i]? = some c) :
    (commandsOf s cs)[i]? = c.command (runCalls (cs.take i) s) := by
  induction cs generalizing s i with
  | nil => simp at hc
  | cons c0 cs ih =>
    obtain ⟨cmd, hcmd⟩ :=
      AccessorCall.command_isSome_of_queues c0 s (h c0 (List.mem_cons_self _ _))
    cases i with
    | zero =>
      simp at hc
      subst hc
      simp [commandsOf, hcmd, runCalls]
    | succ i =>
      simp at hc
      simp only [commandsOf, hcmd, Option.toList, List.singleton_append,
        List.getElem?_cons_succ, List.take_succ_cons, runCalls_cons]
      exact ih (c0.run s) (fun x hx => h x (List.mem_cons_of_mem _ hx)) i hc

/-! ## Submitting -/

theorem CoreThreadAccessorBase.submitToCoreThread_false (s : World) :
    CoreThreadAccessorBase.submitToCoreThread false s =
      { s with
        batches := s.batches ++ [s.mCommands]
        mCommands := []
        coreQueue := s.coreQueue ++ [s.batches.length]
        simLog := s.simLog ++
          [.flush s.batches.length, .coreQueueCommand s.batches.length false] } := by
  simp [CommandQueueBase.flush, CoreThread.queueCommand]

theorem CoreThreadAccessorBase.submitToCoreThread_true (s : World) :
    CoreThreadAccessorBase.submitToCoreThread true s =
      CommandQueueBase.invokeAll
        (s.coreQueue.flatMap (fun k => (s.batches ++ [s.mCommands]).getD k []) ++ s.mCommands)
        { s with
          batches := s.batches ++ [s.mCommands]
          mCommands := []
          coreQueue := []
          simLog := s.simLog ++
            [.flush s.batches.length, .coreQueueCommand s.batches.length true] } := by
  have hb : ∀ w : World, w.batch = fun k => w.batches.getD k [] := fun _ => rfl
  simp [CommandQueueBase.flush, CoreThread.queueCommand, CoreThread.runAll_eq, hb]

theorem CoreThreadAccessorBase.submitToCoreThread_sim (b : Bool) (s : World) :
    (CoreThreadAccessorBase.submitToCoreThread b s).mCommands = [] ∧
      (CoreThreadAccessorBase.submitToCoreThread b s).batches = s.batches ++ [s.mCommands] ∧
      (CoreThreadAccessorBase.submitToCoreThread b s).simLog =
        s.simLog ++ [.flush s.batches.length, .coreQueueCommand s.batches.length b] ∧
      (CoreThreadAccessorBase.submitToCoreThread b s).videoModes = s.videoModes ∧
      (CoreThreadAccessorBase.submitToCoreThread b s).nextAsyncOp = s.nextAsyncOp ∧
      (CoreThreadAccessorBase.submitToCoreThread b s).shadow = s.shadow ∧
      (CoreThreadAccessorBase.submitToCoreThread b s).gpuParams = s.gpuParams := by
  cases b
  · rw [CoreThreadAccessorBase.submitToCoreThread_false]
    simp
  · rw [CoreThreadAccessorBase.submitToCoreThread_true, CommandQueueBase.invokeAll_eq]
    simp

theorem World.batch_concat_length (bs : List (List QueuedCommand)) (q : List QueuedCommand) :
    (bs ++ [q]).getD bs.length [] = q := by
  simp [List.getD_eq_getElem?_getD]

/-! ## C1: the submitted batch is first-in, first-out -/

/-- C1: for every state and every sequence `cs` of accessor calls that queue commands,
followed by `submitToCoreThread b`, the submit hands exactly one batch to the executor (the
detached buffer `s.batches.length`), and that batch is what was already queued followed by
one command per call of `cs`, in the order of the calls: it has `cs.length` new commands,
the `i`-th of them is the command of the `i`-th call, and on an empty queue the batch is
exactly these commands. -/
theorem C1_submitted_batch_is_fifo (s : World) (cs : List AccessorCall) (b : Bool)
    (hq : ∀ c ∈ cs, c.queues = true) :
    (CoreThreadAccessorBase.submitToCoreThread b (runCalls cs s)).simLog
        = (runCalls cs s).simLog
          ++ [.flush s.batches.length, .coreQueueCommand s.batches.length b] ∧
      (CoreThreadAccessorBase.submitToCoreThread b (runCalls cs s)).batch s.batches.length
        = s.mCommands ++ commandsOf s cs ∧
      (commandsOf s cs).length = cs.length ∧
      (∀ (i : Nat) (c : AccessorCall), cs[i]? = some c →
        (commandsOf s cs)[i]? = c.command (runCalls (cs.take i) s)) ∧
      (s.mCommands = [] →
        (CoreThreadAccessorBase.submitToCoreThread b (runCalls cs s)).batch s.batches.length
          = commandsOf s cs) := by
  have hsub := CoreThreadAccessorBase.submitToCoreThread_sim b (runCalls cs s)
  have hcore := runCalls_core_of_queues cs s hq
  have hq1 := runCalls_mCommands_of_queues cs s hq
  have hbatch :
      (CoreThreadAccessorBase.submitToCoreThread b (runCalls cs s)).batch s.batches.length
        = s.mCommands ++ commandsOf s cs := by
    unfold World.batch
    rw [hsub.2.1, hcore.1, World.batch_concat_length, hq1]
  refine ⟨?_, hbatch, commandsOf_length_of_queues cs s hq,
    fun i c hc => commandsOf_getElem?_of_queues cs s hq i c hc, ?_⟩
  · rw [hsub.2.2.1, hcore.1]
  · intro h0
    rw [hbatch, h0, List.nil_append]

/-- C1, at a concrete input: a viewport change, a subresource write and a draw, submitted
from a fresh accessor. -/
theorem C1_submitted_batch_is_fifo_witness :
    (∀ c ∈ [AccessorCall.setViewport 1, AccessorCall.writeSubresource 2 0 3 false,
        AccessorCall.draw 0 3], c.queues = true) ∧
      (CoreThreadAccessorBase.submitToCoreThread false
          (runCalls [AccessorCall.setViewport 1, AccessorCall.writeSubresource 2 0 3 false,
            AccessorCall.draw 0 3] World.init)).batch World.init.batches.length
        = World.init.mCommands ++ commandsOf World.init
            [AccessorCall.setViewport 1, AccessorCall.writeSubresource 2 0 3 false,
              AccessorCall.draw 0 3] :=
  ⟨by decide,
    (C1_submitted_batch_is_fifo World.init
      [AccessorCall.setViewport 1, AccessorCall.writeSubresource 2 0 3 false,
        AccessorCall.draw 0 3] false (by decide)).2.1⟩

/-! ## C2: two draws, each with its viewport -/

theorem CommandQueueBase.playback_coreTrace (commands : QueuePtr) (w : World) :
    (CommandQueueBase.playback commands w).coreTrace
      = w.coreTrace ++ (w.batch commands).map (QueuedCommand.coreCall w.videoModes) := by
  simp [CommandQueueBase.playback, CommandQueueBase.invokeAll_eq]

/-- C2: for all viewports `v1`, `v2`, on an empty queue, after `setViewport(v1)`,
`draw(0,3)`, `setViewport(v2)`, `draw(3,3)` and `submitToCoreThread(b)` the batch handed to
the executor is these four commands; whenever that batch is played back, the operations it
adds to the core-thread trace are exactly `setViewport(v1)`, `draw(0,3)`, `setViewport(v2)`,
`draw(3,3)` on the render system, in this order, with `v1` in effect when the first draw is
made and `v2` when the second is; and a blocking submit returns with this trace applied. -/
theorem C2_viewport_draw_order (s : World) (v1 v2 : Viewport) (b : Bool)
    (h : s.mCommands = []) :
    (viewportScenario v1 v2 b s).batch s.batches.length
        = [.plain (.renderSystem (.setViewport v1)), .plain (.renderSystem (.draw 0 3)),
            .plain (.renderSystem (.setViewport v2)), .plain (.renderSystem (.draw 3 3))] ∧
      (∀ w : World,
        w.batch s.batches.length = (viewportScenario v1 v2 b s).batch s.batches.length →
        (CommandQueueBase.playback s.batches.length w).coreTrace
            = w.coreTrace ++
              [.renderSystem (.setViewport v1), .renderSystem (.draw 0 3),
                .renderSystem (.setViewport v2), .renderSystem (.draw 3 3)] ∧
          activeViewport
              ((CommandQueueBase.playback s.batches.length w).coreTrace.take
                (w.coreTrace.length + 1)) = some v1 ∧
          activeViewport
              ((CommandQueueBase.playback s.batches.length w).coreTrace.take
                (w.coreTrace.length + 3)) = some v2) ∧
      (b = true → ∃ earlier : List CoreCall,
        (viewportScenario v1 v2 b s).coreTrace
          = s.coreTrace ++ earlier ++
            [.renderSystem (.setViewport v1), .renderSystem (.draw 0 3),
              .renderSystem (.setViewport v2), .renderSystem (.draw 3 3)]) := by
  have hbatch : (viewportScenario v1 v2 b s).batch s.batches.length
      = [.plain (.renderSystem (.setViewport v1)), .plain (.renderSystem (.draw 0 3)),
          .plain (.renderSystem (.setViewport v2)), .plain (.renderSystem (.draw 3 3))] := by
    unfold viewportScenario World.batch
    rw [(CoreThreadAccessorBase.submitToCoreThread_sim b _).2.1]
    simp [CommandQueueBase.queue, h, List.getD_eq_getElem?_getD]
  refine ⟨hbatch, ?_, ?_⟩
  · intro w hw
    have ht : (CommandQueueBase.playback s.batches.length w).coreTrace
        = w.coreTrace ++
          [.renderSystem (.setViewport v1), .renderSystem (.draw 0 3),
            .renderSystem (.setViewport v2), .renderSystem (.draw 3 3)] := by
      rw [CommandQueueBase.playback_coreTrace, hw, hbatch]
      simp [QueuedCommand.coreCall]
    refine ⟨ht, ?_, ?_⟩
    · rw [ht, List.take_append]
      simp [activeViewport, CoreCall.viewport?, List.filterMap_append]
    · rw [ht, List.take_append]
      simp [activeViewport, CoreCall.viewport?, List.filterMap_append]
  · intro hb
    subst hb
    refine ⟨(s.coreQueue.flatMap (fun k => (s.batches ++
      [([.plain (.renderSystem (.setViewport v1)), .plain (.renderSystem (.draw 0 3)),
        .plain (.renderSystem (.setViewport v2)), .plain (.renderSystem (.draw 3 3))] :
          List QueuedCommand)]).getD k [])).map (QueuedCommand.coreCall s.videoModes), ?_⟩
    unfold viewportScenario
    rw [CoreThreadAccessorBase.submitToCoreThread_true, CommandQueueBase.invokeAll_eq]
    simp [CommandQueueBase.queue, h, QueuedCommand.coreCall]

/-- C2, at a concrete input: viewports 7 and 9, a blocking submit from a fresh accessor. -/
theorem C2_viewport_draw_order_witness :
    World.init.mCommands = [] ∧
      (viewportScenario 7 9 true World.init).batch World.init.batches.length
        = [.plain (.renderSystem (.setViewport 7)), .plain (.renderSystem (.draw 0 3)),
            .plain (.renderSystem (.setViewport 9)), .plain (.renderSystem (.draw 3 3))] :=
  ⟨rfl, (C2_viewport_draw_order World.init 7 9 true rfl).1⟩

/-! ## C3: a call without result only appends one command -/

/-- C3: for every accessor method without result (the render-system wrappers, the window
methods and `queueCommand`) and every state in which the call can be made (the `params` of
`bindGpuParams` is a live object), one call appends exactly one command, a command without
result, at the end of the accessor's queue and leaves the commands queued before it
unchanged and in place; it performs no operation on the core thread (the trace of
render-system and window operations is unchanged) and changes neither the detached
batches, nor what the executor has accepted, nor any `AsyncOp` or lock. -/
theorem C3_no_result_call_appends_one_command (c : AccessorCall) (s : World)
    (h : c.isNoResult = true) (_hlive : c.paramsLive s = true) :
    ∃ cb : Callback,
      c.command s = some (.plain cb) ∧
      (c.run s).mCommands = s.mCommands ++ [.plain cb] ∧
      (c.run s).coreTrace = s.coreTrace ∧
      (c.run s).batches = s.batches ∧
      (c.run s).coreQueue = s.coreQueue ∧
      (c.run s).completed = s.completed ∧
      (c.run s).nextAsyncOp = s.nextAsyncOp ∧
      (c.run s).locked = s.locked ∧
      (c.run s).shadow = s.shadow ∧
      (c.run s).videoModes = s.videoModes := by
  cases c <;>
    simp_all [AccessorCall.isNoResult, AccessorCall.run, AccessorCall.command,
      CommandQueueBase.queue, GpuParams._cloneForCore]

/-- C3, at a concrete input: `bindGpuParams(1, 0)` on the live `GpuParams` object 0, in a
state with a draw and a subresource write already queued and the data buffer locked: the
queue of two commands grows to three, the first two unchanged. -/
theorem C3_no_result_call_appends_one_command_witness :
    (AccessorCall.bindGpuParams 1 0).isNoResult = true ∧
      (AccessorCall.bindGpuParams 1 0).paramsLive World.withQueuedWork = true ∧
      World.withQueuedWork.mCommands
        = [.plain (.renderSystem (.draw 0 3)), .withReturn (.writeSubresource 1 0 5 false) 0] ∧
      ∃ cb : Callback,
        (AccessorCall.bindGpuParams 1 0).command World.withQueuedWork = some (.plain cb) ∧
        ((AccessorCall.bindGpuParams 1 0).run World.withQueuedWork).mCommands
          = World.withQueuedWork.mCommands ++ [.plain cb] ∧
        ((AccessorCall.bindGpuParams 1 0).run World.withQueuedWork).coreTrace
          = World.withQueuedWork.coreTrace ∧
        ((AccessorCall.bindGpuParams 1 0).run World.withQueuedWork).batches
          = World.withQueuedWork.batches ∧
        ((AccessorCall.bindGpuParams 1 0).run World.withQueuedWork).coreQueue
          = World.withQueuedWork.coreQueue ∧
        ((AccessorCall.bindGpuParams 1 0).run World.withQueuedWork).completed
          = World.withQueuedWork.completed ∧
        ((AccessorCall.bindGpuParams 1 0).run World.withQueuedWork).nextAsyncOp
          = World.withQueuedWork.nextAsyncOp ∧
        ((AccessorCall.bindGpuParams 1 0).run World.withQueuedWork).locked
          = World.withQueuedWork.locked ∧
        ((AccessorCall.bindGpuParams 1 0).run World.withQueuedWork).shadow
          = World.withQueuedWork.shadow ∧
        ((AccessorCall.bindGpuParams 1 0).run World.withQueuedWork).videoModes
          = World.withQueuedWork.videoModes :=
  ⟨rfl, by decide, by decide,
    C3_no_result_call_appends_one_command (AccessorCall.bindGpuParams 1 0)
      World.withQueuedWork rfl (by decide)⟩

/-! ## C4: what a submit hands to the executor -/

/-- C4: for every state (every queue content) and every boolean `b`,
`submitToCoreThread(b)` flushes the queue and then makes exactly one `queueCommand` call on
the executor, with the pointer returned by the flush and the blocking flag `b`; the buffer
it hands over holds exactly the commands that were in the queue, so that playing it back
performs their operations in order; these are the commands queued since the previous
`submitToCoreThread` or `cancelAll`; and after the call the accessor's queue is empty. A
non-blocking submit leaves the invocation with the executor, as the newest one. -/
theorem C4_submit_hands_over_queue (s : World) (b : Bool) :
    (CoreThreadAccessorBase.submitToCoreThread b s).simLog
        = s.simLog ++ [.flush s.batches.length, .coreQueueCommand s.batches.length b] ∧
      (CoreThreadAccessorBase.submitToCoreThread b s).batch s.batches.length = s.mCommands ∧
      (∀ w : World,
        w.batch s.batches.length
          = (CoreThreadAccessorBase.submitToCoreThread b s).batch s.batches.length →
        (CommandQueueBase.playback s.batches.length w).coreTrace
          = w.coreTrace ++ s.mCommands.map (QueuedCommand.coreCall w.videoModes)) ∧
      (CoreThreadAccessorBase.submitToCoreThread b s).mCommands = [] ∧
      (b = false →
        (CoreThreadAccessorBase.submitToCoreThread b s).coreQueue
          = s.coreQueue ++ [s.batches.length]) ∧
      (∀ (s0 : World) (b0 : Bool) (cs : List AccessorCall),
        (∀ c ∈ cs, c.queues = true) →
        s = runCalls cs (CoreThreadAccessorBase.submitToCoreThread b0 s0) →
        s.mCommands = commandsOf (CoreThreadAccessorBase.submitToCoreThread b0 s0) cs) ∧
      (∀ (s0 : World) (cs : List AccessorCall),
        (∀ c ∈ cs, c.queues = true) →
        s = runCalls cs (CoreThreadAccessorBase.cancelAll s0) →
        s.mCommands = commandsOf (CoreThreadAccessorBase.cancelAll s0) cs) := by
  have hsub := CoreThreadAccessorBase.submitToCoreThread_sim b s
  have hbatch :
      (CoreThreadAccessorBase.submitToCoreThread b s).batch s.batches.length = s.mCommands := by
    unfold World.batch
    rw [hsub.2.1, World.batch_concat_length]
  refine ⟨hsub.2.2.1, hbatch, ?_, hsub.1, ?_, ?_, ?_⟩
  · intro w hw
    rw [CommandQueueBase.playback_coreTrace, hw, hbatch]
  · intro hb
    subst hb
    rw [CoreThreadAccessorBase.submitToCoreThread_false]
  · intro s0 b0 cs hq hs
    rw [hs, runCalls_mCommands_of_queues cs _ hq,
      (CoreThreadAccessorBase.submitToCoreThread_sim b0 s0).1, List.nil_append]
  · intro s0 cs hq hs
    rw [hs, runCalls_mCommands_of_queues cs _ hq]
    simp [CommandQueueBase.cancelAll]

/-! ## C5: a detached batch is out of reach of the accessor -/

theorem runSteps_cons (st : Step) (sts : List Step) (s : World) :
    runSteps (st :: sts) s = runSteps sts (st.run s) := rfl

theorem runSteps_append (xs ys : List Step) (s : World) :
    runSteps (xs ++ ys) s = runSteps ys (runSteps xs s) := by
  simp [runSteps, List.foldl_append]

theorem AccessorCall.queues_or (c : AccessorCall) :
    c.queues = true ∨ (∃ b, c = .submitToCoreThread b) ∨ c = .cancelAll := by
  cases c <;> simp [AccessorCall.queues, AccessorCall.isNoResult, AccessorCall.returnsAsyncOp]

theorem AccessorCall.run_batches (c : AccessorCall) (s : World) :
    ∃ extra, (c.run s).batches = s.batches ++ extra := by
  rcases c.queues_or with hq | ⟨b, rfl⟩ | rfl
  · exact ⟨[], by simp [(AccessorCall.run_core_of_queues c s hq).1]⟩
  · exact ⟨[s.mCommands], (CoreThreadAccessorBase.submitToCoreThread_sim b s).2.1⟩
  · exact ⟨[], by simp [AccessorCall.run, CommandQueueBase.cancelAll]⟩

theorem CoreThread.runNext_eq (s : World) :
    CoreThread.runNext s
      = CommandQueueBase.invokeAll (s.coreQueue.head?.elim [] s.batch)
          { s with coreQueue := s.coreQueue.tail } := by
  unfold CoreThread.runNext
  cases h : s.coreQueue with
  | nil =>
    simp only [List.head?_nil, Option.elim, List.tail_nil, CommandQueueBase.invokeAll,
      List.foldl_nil]
    rw [← h]
  | cons k rest => simp [CommandQueueBase.playback, World.batch]

theorem Step.run_appends_batches (st : Step) (s : World) :
    ∃ extra, (st.run s).batches = s.batches ++ extra := by
  cases st with
  | call c => exact AccessorCall.run_batches c s
  | coreRun =>
    exact ⟨[], by simp [Step.run, CoreThread.runNext_eq, CommandQueueBase.invokeAll_eq]⟩

theorem runSteps_batches (sts : List Step) (s : World) :
    ∃ extra, (runSteps sts s).batches = s.batches ++ extra := by
  induction sts generalizing s with
  | nil => exact ⟨[], by simp [runSteps]⟩
  | cons st sts ih =>
    obtain ⟨e1, h1⟩ := Step.run_appends_batches st s
    obtain ⟨e2, h2⟩ := ih (st.run s)
    exact ⟨e1 ++ e2, by rw [runSteps_cons, h2, h1, List.append_assoc]⟩

theorem World.batch_of_batches_append (s w : World) (extra : List (List QueuedCommand))
    (k : QueuePtr) (h : w.batches = s.batches ++ extra) (hk : k < s.batches.length) :
    w.batch k = s.batch k := by
  unfold World.batch
  rw [h, List.getD_append _ _ _ _ hk]

/-- C5: once `submitToCoreThread` has detached a batch, nothing that happens later changes
it: after every sequence of later steps (calls of any accessor method, `cancelAll` and
further submits included, and runs of the core thread) the detached buffer still holds
exactly the commands it held when it was handed over, in the same order; buffers detached
later lie behind it; and commands queued after the submit are in the batch of the next
submit, which is another buffer, not in the detached one. -/
theorem C5_detached_batch_is_frozen (s : World) (b : Bool) (later : List Step) :
    (runSteps later (CoreThreadAccessorBase.submitToCoreThread b s)).batch s.batches.length
        = s.mCommands ∧
      (∃ extra, (runSteps later (CoreThreadAccessorBase.submitToCoreThread b s)).batches
        = s.batches ++ [s.mCommands] ++ extra) ∧
      (∀ (cs : List AccessorCall) (b2 : Bool), (∀ c ∈ cs, c.queues = true) →
        (CoreThreadAccessorBase.submitToCoreThread b2
            (runCalls cs (CoreThreadAccessorBase.submitToCoreThread b s))).batch
              (s.batches.length + 1)
          = commandsOf (CoreThreadAccessorBase.submitToCoreThread b s) cs ∧
        (CoreThreadAccessorBase.submitToCoreThread b2
            (runCalls cs (CoreThreadAccessorBase.submitToCoreThread b s))).batch
              s.batches.length
          = s.mCommands) := by
  have hsub := CoreThreadAccessorBase.submitToCoreThread_sim b s
  have hk : s.batches.length < (CoreThreadAccessorBase.submitToCoreThread b s).batches.length := by
    rw [hsub.2.1]; simp
  have h0 : (CoreThreadAccessorBase.submitToCoreThread b s).batch s.batches.length
      = s.mCommands := by
    unfold World.batch
    rw [hsub.2.1, World.batch_concat_length]
  obtain ⟨extra, hextra⟩ := runSteps_batches later (CoreThreadAccessorBase.submitToCoreThread b s)
  refine ⟨?_, ⟨extra, by rw [hextra, hsub.2.1]⟩, ?_⟩
  · rw [World.batch_of_batches_append _ _ extra _ hextra hk, h0]
  · intro cs b2 hq
    have hsub2 := CoreThreadAccessorBase.submitToCoreThread_sim b2
      (runCalls cs (CoreThreadAccessorBase.submitToCoreThread b s))
    have hcore := runCalls_core_of_queues cs (CoreThreadAccessorBase.submitToCoreThread b s) hq
    have hq1 := runCalls_mCommands_of_queues cs (CoreThreadAccessorBase.submitToCoreThread b s) hq
    rw [hsub.1, List.nil_append] at hq1
    have hb : (CoreThreadAccessorBase.submitToCoreThread b2
        (runCalls cs (CoreThreadAccessorBase.submitToCoreThread b s))).batches
          = (s.batches ++ [s.mCommands])
            ++ [commandsOf (CoreThreadAccessorBase.submitToCoreThread b s) cs] := by
      rw [hsub2.2.1, hcore.1, hsub.2.1, hq1]
    constructor
    · unfold World.batch
      rw [hb]
      have hl : s.batches.length + 1 = (s.batches ++ [s.mCommands]).length := by simp
      rw [hl, World.batch_concat_length]
    · unfold World.batch
      rw [hb, List.getD_append _ _ _ _ (by simp), World.batch_concat_length]

/-! ## C6: cancelled commands are never handed over -/

theorem CoreThreadAccessorBase.submitToCoreThread_coreTrace (b : Bool) (s : World) :
    (CoreThreadAccessorBase.submitToCoreThread b s).coreTrace
      = if b then
          s.coreTrace ++
            (s.coreQueue.flatMap (fun k => (s.batches ++ [s.mCommands]).getD k [])
              ++ s.mCommands).map (QueuedCommand.coreCall s.videoModes)
        else s.coreTrace := by
  cases b
  · rw [CoreThreadAccessorBase.submitToCoreThread_false]
    simp
  · rw [CoreThreadAccessorBase.submitToCoreThread_true, CommandQueueBase.invokeAll_eq]
    simp

theorem CommandQueueBase.playback_of_batch_nil (commands : QueuePtr) (w : World)
    (h : w.batch commands = []) : CommandQueueBase.playback commands w = w := by
  simp [CommandQueueBase.playback, h, CommandQueueBase.invokeAll]

/-- C6: for every state and every sequence `cs` of accessor calls that queue commands,
`cancelAll` followed by `submitToCoreThread(b)` hands the executor an empty batch; playing
that batch back changes nothing, so it performs no render-system or window operation; and
the operations performed on the core thread are the same as if the cancelled calls had
never been made. -/
theorem C6_cancel_then_submit_is_empty (s : World) (cs : List AccessorCall) (b : Bool)
    (hq : ∀ c ∈ cs, c.queues = true) :
    (CoreThreadAccessorBase.submitToCoreThread b
        (CoreThreadAccessorBase.cancelAll (runCalls cs s))).simLog
        = (CoreThreadAccessorBase.cancelAll (runCalls cs s)).simLog
          ++ [.flush s.batches.length, .coreQueueCommand s.batches.length b] ∧
      (CoreThreadAccessorBase.submitToCoreThread b
        (CoreThreadAccessorBase.cancelAll (runCalls cs s))).batch s.batches.length = [] ∧
      (∀ w : World,
        w.batch s.batches.length
          = (CoreThreadAccessorBase.submitToCoreThread b
              (CoreThreadAccessorBase.cancelAll (runCalls cs s))).batch s.batches.length →
        CommandQueueBase.playback s.batches.length w = w) ∧
      (CoreThreadAccessorBase.submitToCoreThread b
        (CoreThreadAccessorBase.cancelAll (runCalls cs s))).coreTrace
        = (CoreThreadAccessorBase.submitToCoreThread b
            (CoreThreadAccessorBase.cancelAll s)).coreTrace := by
  obtain ⟨hb, hcq, hct, -, hvm⟩ := runCalls_core_of_queues cs s hq
  have hsub := CoreThreadAccessorBase.submitToCoreThread_sim b
    (CoreThreadAccessorBase.cancelAll (runCalls cs s))
  have hcb : (CoreThreadAccessorBase.cancelAll (runCalls cs s)).batches = s.batches := by
    simp [CommandQueueBase.cancelAll, hb]
  have hcm : (CoreThreadAccessorBase.cancelAll (runCalls cs s)).mCommands = [] := by
    simp [CommandQueueBase.cancelAll]
  have hbatch : (CoreThreadAccessorBase.submitToCoreThread b
      (CoreThreadAccessorBase.cancelAll (runCalls cs s))).batch s.batches.length = [] := by
    unfold World.batch
    rw [hsub.2.1, hcb, hcm, World.batch_concat_length]
  refine ⟨?_, hbatch, ?_, ?_⟩
  · rw [hsub.2.2.1, hcb]
  · intro w hw
    exact CommandQueueBase.playback_of_batch_nil _ w (hw.trans hbatch)
  · rw [CoreThreadAccessorBase.submitToCoreThread_coreTrace,
      CoreThreadAccessorBase.submitToCoreThread_coreTrace]
    simp [CommandQueueBase.cancelAll, hb, hcq, hct, hvm]

/-- C6, at a concrete input: a draw and a subresource read are queued, cancelled, and a
blocking submit follows. -/
theorem C6_cancel_then_submit_is_empty_witness :
    (∀ c ∈ [AccessorCall.draw 0 3, AccessorCall.readSubresource 1 0 2], c.queues = true) ∧
      (CoreThreadAccessorBase.submitToCoreThread true
        (CoreThreadAccessorBase.cancelAll
          (runCalls [AccessorCall.draw 0 3, AccessorCall.readSubresource 1 0 2]
            World.init))).coreTrace
        = (CoreThreadAccessorBase.submitToCoreThread true
            (CoreThreadAccessorBase.cancelAll World.init)).coreTrace :=
  ⟨by decide,
    (C6_cancel_then_submit_is_empty World.init
      [AccessorCall.draw 0 3, AccessorCall.readSubresource 1 0 2] true (by decide)).2.2.2⟩

/-! ## C7: the data buffer is locked before the command is queued -/

theorem mem_unlockAll_or (calls : List CoreCall) (l : List GpuResourceDataPtr)
    (d : GpuResourceDataPtr) (h : d ∈ l) :
    d ∈ unlockAll calls l ∨ ∃ call ∈ calls, call.unlocks = some d := by
  induction calls generalizing l with
  | nil => exact Or.inl (by simpa [unlockAll] using h)
  | cons c cs ih =>
    have hstep : unlockAll (c :: cs) l = unlockAll cs (unlockAll [c] l) := by
      simp [unlockAll]
    cases hu : c.unlocks with
    | none =>
      have h1 : d ∈ unlockAll [c] l := by simpa [unlockAll, hu] using h
      rcases ih _ h1 with h2 | ⟨call, hc, hcall⟩
      · exact Or.inl (by rw [hstep]; exact h2)
      · exact Or.inr ⟨call, List.mem_cons_of_mem _ hc, hcall⟩
    | some x =>
      by_cases hx : d = x
      · exact Or.inr ⟨c, List.mem_cons_self _ _, by rw [hu, hx]⟩
      · have h1 : d ∈ unlockAll [c] l := by simpa [unlockAll, hu, hx] using h
        rcases ih _ h1 with h2 | ⟨call, hc, hcall⟩
        · exact Or.inl (by rw [hstep]; exact h2)
        · exact Or.inr ⟨call, List.mem_cons_of_mem _ hc, hcall⟩

theorem AccessorCall.run_locked_of_queues (c : AccessorCall) (s : World)
    (h : c.queues = true) (d : GpuResourceDataPtr) (hd : d ∈ s.locked) :
    d ∈ (c.run s).locked := by
  cases c <;>
    simp_all [AccessorCall.queues, AccessorCall.isNoResult, AccessorCall.returnsAsyncOp,
      AccessorCall.run, CommandQueueBase.queue, CommandQueueBase.queueReturn,
      GpuResourceData._lock, GpuResource._writeSubresourceSim, GpuParams._cloneForCore]
  all_goals split <;> simp_all

theorem AccessorCall.run_keeps_lock (c : AccessorCall) (w : World) (d : GpuResourceDataPtr)
    (hd : d ∈ w.locked) :
    d ∈ (c.run w).locked ∨
      ∃ call ∈ (c.run w).coreTrace.drop w.coreTrace.length, call.unlocks = some d := by
  rcases c.queues_or with hq | ⟨b, rfl⟩ | rfl
  · exact Or.inl (AccessorCall.run_locked_of_queues c w hq d hd)
  · cases b
    · left
      show d ∈ (CoreThreadAccessorBase.submitToCoreThread false w).locked
      rw [CoreThreadAccessorBase.submitToCoreThread_false]
      exact hd
    · show d ∈ (CoreThreadAccessorBase.submitToCoreThread true w).locked ∨
        ∃ call ∈ (CoreThreadAccessorBase.submitToCoreThread true w).coreTrace.drop
          w.coreTrace.length, call.unlocks = some d
      rw [CoreThreadAccessorBase.submitToCoreThread_true, CommandQueueBase.invokeAll_eq]
      simp only [List.drop_left]
      exact mem_unlockAll_or _ _ d hd
  · exact Or.inl (by simpa [AccessorCall.run, CommandQueueBase.cancelAll] using hd)

/-- C7: for every resource, subresource index and data buffer, `writeSubresource` and
`readSubresource` lock the data buffer on the calling thread before they queue: the
collaborator calls of the method start with the lock and end with the `queueReturn`, the
buffer is locked when the call returns, exactly one command, carrying the returned
`AsyncOp`, has been appended to the queue, and no call of any accessor method unlocks a
locked buffer: it is locked afterwards unless an operation executed on the core thread
during the call (a blocking submit) unlocked it. -/
theorem C7_subresource_calls_lock_before_queueing (s : World) (resource : GpuResourcePtr)
    (subresourceIdx : Nat) (data : GpuResourceDataPtr) (discardEntireBuffer : Bool) :
    ((CoreThreadAccessorBase.writeSubresource resource subresourceIdx data
        discardEntireBuffer s).2.isLocked data = true ∧
      (CoreThreadAccessorBase.writeSubresource resource subresourceIdx data
        discardEntireBuffer s).2.simLog
        = s.simLog ++
          [.lock data,
            .writeSubresourceSim resource subresourceIdx data discardEntireBuffer,
            .queueReturn (.writeSubresource resource subresourceIdx data discardEntireBuffer)
              (CoreThreadAccessorBase.writeSubresource resource subresourceIdx data
                discardEntireBuffer s).1] ∧
      (CoreThreadAccessorBase.writeSubresource resource subresourceIdx data
        discardEntireBuffer s).2.mCommands
        = s.mCommands ++
          [.withReturn (.writeSubresource resource subresourceIdx data discardEntireBuffer)
            (CoreThreadAccessorBase.writeSubresource resource subresourceIdx data
              discardEntireBuffer s).1]) ∧
    ((CoreThreadAccessorBase.readSubresource resource subresourceIdx data s).2.isLocked data
        = true ∧
      (CoreThreadAccessorBase.readSubresource resource subresourceIdx data s).2.simLog
        = s.simLog ++
          [.lock data,
            .queueReturn (.readSubresource resource subresourceIdx data)
              (CoreThreadAccessorBase.readSubresource resource subresourceIdx data s).1] ∧
      (CoreThreadAccessorBase.readSubresource resource subresourceIdx data s).2.mCommands
        = s.mCommands ++
          [.withReturn (.readSubresource resource subresourceIdx data)
            (CoreThreadAccessorBase.readSubresource resource subresourceIdx data s).1]) ∧
    (∀ (c : AccessorCall) (w : World), w.isLocked data = true →
      (c.run w).isLocked data = true ∨
        ∃ call ∈ (c.run w).coreTrace.drop w.coreTrace.length, call.unlocks = some data) := by
  refine ⟨⟨?_, ?_, ?_⟩, ⟨?_, ?_, ?_⟩, ?_⟩
  · simp only [CoreThreadAccessorBase.writeSubresource, CommandQueueBase.queueReturn,
      GpuResourceData._lock, GpuResource._writeSubresourceSim, World.isLocked]
    split <;> simp_all
  · simp [CommandQueueBase.queueReturn, GpuResourceData._lock,
      GpuResource._writeSubresourceSim]
  · simp [CommandQueueBase.queueReturn, GpuResourceData._lock,
      GpuResource._writeSubresourceSim]
  · simp only [CoreThreadAccessorBase.readSubresource, CommandQueueBase.queueReturn,
      GpuResourceData._lock, World.isLocked]
    split <;> simp_all
  · simp [CommandQueueBase.queueReturn, GpuResourceData._lock]
  · simp [CommandQueueBase.queueReturn, GpuResourceData._lock]
  · intro c w hw
    have hd : data ∈ w.locked := by simpa [World.isLocked] using hw
    rcases AccessorCall.run_keeps_lock c w data hd with h | h
    · exact Or.inl (by simpa [World.isLocked] using h)
    · exact Or.inr h

/-! ## C9: the simulated write -/

/-- C9: for every resource `R`, subresource index `i`, data `D` and flag `d`, the
collaborator calls of `writeSubresource(R, i, D, d)` on the calling thread are, in this
order, the lock of `D`, the simulated write `R._writeSubresourceSim(i, D, d)` with the same
index, data and flag, and the `queueReturn` of the real write, so the simulated write is
applied before the method returns, after the lock and before the queueing, and it is
recorded in the shadow state; `readSubresource(R, i, D)` makes no simulated write: its
collaborator calls are the lock and the `queueReturn`, and the shadow state is unchanged. -/
theorem C9_write_applies_simulated_write (s : World) (resource : GpuResourcePtr)
    (subresourceIdx : Nat) (data : GpuResourceDataPtr) (discardEntireBuffer : Bool) :
    (CoreThreadAccessorBase.writeSubresource resource subresourceIdx data
        discardEntireBuffer s).2.simLog
        = s.simLog ++
          [.lock data,
            .writeSubresourceSim resource subresourceIdx data discardEntireBuffer,
            .queueReturn (.writeSubresource resource subresourceIdx data discardEntireBuffer)
              s.nextAsyncOp] ∧
      (CoreThreadAccessorBase.writeSubresource resource subresourceIdx data
        discardEntireBuffer s).2.shadow
        = s.shadow ++ [⟨resource, subresourceIdx, data, discardEntireBuffer⟩] ∧
      (CoreThreadAccessorBase.readSubresource resource subresourceIdx data s).2.simLog
        = s.simLog ++
          [.lock data, .queueReturn (.readSubresource resource subresourceIdx data)
            s.nextAsyncOp] ∧
      (CoreThreadAccessorBase.readSubresource resource subresourceIdx data s).2.shadow
        = s.shadow ∧
      (∀ (r i d : Nat) (x : Bool),
        SimEvent.writeSubresourceSim r i d x ∉
          (CoreThreadAccessorBase.readSubresource resource subresourceIdx data s).2.simLog.drop
            s.simLog.length) := by
  refine ⟨?_, ?_, ?_, ?_, ?_⟩ <;>
    simp [CommandQueueBase.queueReturn, GpuResourceData._lock,
      GpuResource._writeSubresourceSim]

/-! ## What a step executes, queues and leaves pending -/

theorem QueuedCommand.coreCall_completes (videoModes : List VideoMode) (cmd : QueuedCommand) :
    (cmd.coreCall videoModes).completes = cmd.asyncOp? := by
  rcases cmd with cb | ⟨cb, op⟩
  · cases cb with
    | renderSystem c =>
      cases c <;> simp [QueuedCommand.coreCall, CoreCall.completes, QueuedCommand.asyncOp?]
    | renderWindow w c =>
      simp [QueuedCommand.coreCall, CoreCall.completes, QueuedCommand.asyncOp?]
    | renderWindowFullscreenRef w m =>
      simp [QueuedCommand.coreCall, CoreCall.completes, QueuedCommand.asyncOp?]
    | user f => simp [QueuedCommand.coreCall, CoreCall.completes, QueuedCommand.asyncOp?]
  · cases cb <;> simp [QueuedCommand.coreCall, CoreCall.completes, QueuedCommand.asyncOp?]

theorem filterMap_completes_map_coreCall (videoModes : List VideoMode)
    (cmds : List QueuedCommand) :
    (cmds.map (QueuedCommand.coreCall videoModes)).filterMap CoreCall.completes
      = cmds.filterMap QueuedCommand.asyncOp? := by
  induction cmds with
  | nil => rfl
  | cons c cs ih =>
    simp only [List.map_cons, List.filterMap_cons, QueuedCommand.coreCall_completes, ih]

theorem AccessorCall.command_asyncOp (c : AccessorCall) (s : World) (cmd : QueuedCommand)
    (h : c.command s = some cmd) :
    (cmd.asyncOp? = none ∧ (c.run s).nextAsyncOp = s.nextAsyncOp) ∨
      (cmd.asyncOp? = some s.nextAsyncOp ∧ (c.run s).nextAsyncOp = s.nextAsyncOp + 1) := by
  cases c <;>
    simp_all [AccessorCall.run, AccessorCall.command, CommandQueueBase.queue,
      CommandQueueBase.queueReturn, GpuResourceData._lock, GpuResource._writeSubresourceSim,
      GpuParams._cloneForCore, QueuedCommand.asyncOp?] <;>
    subst h <;> simp [QueuedCommand.asyncOp?]

theorem flatMap_getD_concat (ks : List QueuePtr) (bs : List (List QueuedCommand))
    (q : List QueuedCommand) (h : ∀ k ∈ ks, k < bs.length) :
    ks.flatMap (fun k => (bs ++ [q]).getD k []) = ks.flatMap (fun k => bs.getD k []) :=
  List.flatMap_congr (fun k hk => List.getD_append _ _ _ _ (h k hk))

theorem World.pending_eq (s : World) :
    s.pending = s.coreQueue.flatMap (fun k => s.batches.getD k []) ++ s.mCommands := rfl

/-- What a step does, in one statement: it executes some commands, `executed`, and queues
at most one, `queued`; the operations of the executed commands are added to the trace and
their `AsyncOp`s completed; what was executed and what is pending afterwards was pending
before or has just been queued, in the same order. -/
theorem Step.run_effect (st : Step) (s : World)
    (h : ∀ k ∈ s.coreQueue, k < s.batches.length) :
    ∃ executed queued : List QueuedCommand,
      (st.run s).coreTrace
          = s.coreTrace ++ executed.map (QueuedCommand.coreCall s.videoModes) ∧
        (st.run s).completed = s.completed ++ executed.filterMap QueuedCommand.asyncOp? ∧
        (executed ++ (st.run s).pending).Sublist (s.pending ++ queued) ∧
        ((queued = [] ∧ (st.run s).nextAsyncOp = s.nextAsyncOp) ∨
          ∃ cmd, queued = [cmd] ∧ executed = [] ∧
            ((cmd.asyncOp? = none ∧ (st.run s).nextAsyncOp = s.nextAsyncOp) ∨
              (cmd.asyncOp? = some s.nextAsyncOp ∧
                (st.run s).nextAsyncOp = s.nextAsyncOp + 1))) ∧
        (∀ k ∈ (st.run s).coreQueue, k < (st.run s).batches.length) ∧
        (st.run s).videoModes = s.videoModes := by
  cases st with
  | call c =>
    rcases c.queues_or with hq | ⟨b, rfl⟩ | rfl
    · obtain ⟨cmd, hcmd⟩ := AccessorCall.command_isSome_of_queues c s hq
      obtain ⟨hb, hcq, hct, hcp, hvm⟩ := AccessorCall.run_core_of_queues c s hq
      have hm := AccessorCall.run_mCommands_of_queues c s hq
      rw [hcmd] at hm
      refine ⟨[], [cmd], ?_, ?_, ?_, Or.inr ⟨cmd, rfl, rfl, ?_⟩, ?_, ?_⟩
      · simpa [Step.run] using hct
      · simpa [Step.run] using hcp
      · simp only [Step.run, List.nil_append, World.pending_eq, hb, hcq, hm, Option.toList,
          List.append_assoc]
        exact List.Sublist.refl _
      · exact AccessorCall.command_asyncOp c s cmd hcmd
      · simpa [Step.run, hb, hcq] using h
      · simpa [Step.run] using hvm
    · cases b
      · simp only [Step.run, AccessorCall.run]
        rw [CoreThreadAccessorBase.submitToCoreThread_false]
        refine ⟨[], [], ?_, ?_, ?_, Or.inl ⟨rfl, ?_⟩, ?_, ?_⟩
        · simp
        · simp
        · simp only [World.pending_eq, List.nil_append, List.append_nil,
            List.flatMap_append, List.flatMap_singleton, World.batch_concat_length,
            flatMap_getD_concat _ _ _ h]
          exact List.Sublist.refl _
        · simp
        · intro k hk
          rcases List.mem_append.1 hk with hk | hk
          · simpa using Nat.lt_succ_of_lt (h k hk)
          · simp at hk
            simp [hk]
        · simp
      · simp only [Step.run, AccessorCall.run]
        rw [CoreThreadAccessorBase.submitToCoreThread_true, CommandQueueBase.invokeAll_eq]
        refine ⟨s.pending, [], ?_, ?_, ?_, Or.inl ⟨rfl, ?_⟩, ?_, ?_⟩
        · simp only [World.pending_eq, flatMap_getD_concat _ _ _ h]
        · simp only [World.pending_eq, flatMap_getD_concat _ _ _ h,
            filterMap_completes_map_coreCall]
        · simp [World.pending_eq]
        · simp
        · simp
        · simp
    · refine ⟨[], [], ?_, ?_, ?_, Or.inl ⟨rfl, ?_⟩, ?_, ?_⟩
      · simp [Step.run, AccessorCall.run, CommandQueueBase.cancelAll]
      · simp [Step.run, AccessorCall.run, CommandQueueBase.cancelAll]
      · simp [Step.run, AccessorCall.run, CommandQueueBase.cancelAll, World.pending_eq]
      · simp [Step.run, AccessorCall.run, CommandQueueBase.cancelAll]
      · simpa [Step.run, AccessorCall.run, CommandQueueBase.cancelAll] using h
      · simp [Step.run, AccessorCall.run, CommandQueueBase.cancelAll]
  | coreRun =>
    cases hq : s.coreQueue with
    | nil =>
      refine ⟨[], [], ?_, ?_, ?_, Or.inl ⟨rfl, ?_⟩, ?_, ?_⟩ <;>
        simp [Step.run, CoreThread.runNext, hq]
    | cons k rest =>
      simp only [Step.run]
      rw [CoreThread.runNext_eq, CommandQueueBase.invokeAll_eq]
      simp only [hq, List.head?_cons, Option.elim, List.tail_cons]
      refine ⟨s.batch k, [], ?_, ?_, ?_, Or.inl ⟨rfl, ?_⟩, ?_, ?_⟩
      · rfl
      · simp only [filterMap_completes_map_coreCall]
      · simp only [World.pending_eq, hq, List.flatMap_cons, List.append_nil,
          List.append_assoc, World.batch]
        exact List.Sublist.refl _
      · trivial
      · exact fun j hj => h j (by rw [hq]; exact List.mem_cons_of_mem _ hj)
      · trivial

/-! ## The bookkeeping stays consistent -/

theorem World.asyncOpsInUse_after (s w : World) (executed queued : List QueuedCommand)
    (hcomp : w.completed = s.completed ++ executed.filterMap QueuedCommand.asyncOp?)
    (hsub : (executed ++ w.pending).Sublist (s.pending ++ queued)) :
    w.asyncOpsInUse.Sublist (s.asyncOpsInUse ++ queued.filterMap QueuedCommand.asyncOp?) := by
  unfold World.asyncOpsInUse
  rw [hcomp, List.append_assoc, ← List.filterMap_append, List.append_assoc,
    ← List.filterMap_append]
  exact List.Sublist.append (List.Sublist.refl _) (hsub.filterMap _)

theorem Step.run_consistent (st : Step) (s : World) (h : s.Consistent) :
    (st.run s).Consistent := by
  obtain ⟨hk, hnd, hlt⟩ := h
  obtain ⟨executed, queued, -, hcomp, hsub, hq, hk2, -⟩ := Step.run_effect st s hk
  have hsl := World.asyncOpsInUse_after s (st.run s) executed queued hcomp hsub
  have key : (s.asyncOpsInUse ++ queued.filterMap QueuedCommand.asyncOp?).Nodup ∧
      ∀ op ∈ s.asyncOpsInUse ++ queued.filterMap QueuedCommand.asyncOp?,
        op < (st.run s).nextAsyncOp := by
    rcases hq with ⟨hq0, hn⟩ | ⟨cmd, hq1, -, ⟨ha, hn⟩ | ⟨ha, hn⟩⟩
    · subst hq0
      simpa [hn] using ⟨hnd, hlt⟩
    · subst hq1
      simpa [ha, hn] using ⟨hnd, hlt⟩
    · subst hq1
      simp only [List.filterMap_cons, ha, List.filterMap_nil, hn]
      constructor
      · rw [List.nodup_append]
        refine ⟨hnd, List.nodup_singleton _, ?_⟩
        intro x hx hx2
        rw [List.mem_singleton] at hx2
        have h1 := hlt x hx
        rw [hx2] at h1
        exact Nat.lt_irrefl _ h1
      · intro op hop
        rcases List.mem_append.1 hop with hop | hop
        · exact Nat.lt_succ_of_lt (hlt op hop)
        · rw [List.mem_singleton] at hop
          rw [hop]
          exact Nat.lt_succ_self _
  exact ⟨hk2, key.1.sublist hsl, fun op hop => key.2 op (hsl.subset hop)⟩

theorem runSteps_consistent (sts : List Step) (s : World) (h : s.Consistent) :
    (runSteps sts s).Consistent := by
  induction sts generalizing s with
  | nil => exact h
  | cons st sts ih => exact ih (st.run s) (Step.run_consistent st s h)

theorem Step.run_owns (st : Step) (s : World) (op : AsyncOp) (cmd : QueuedCommand)
    (hk : ∀ k ∈ s.coreQueue, k < s.batches.length) (h : s.Owns op cmd) :
    (st.run s).Owns op cmd := by
  obtain ⟨hlt, hown⟩ := h
  obtain ⟨executed, queued, -, -, hsub, hq, -, -⟩ := Step.run_effect st s hk
  constructor
  · rcases hq with ⟨-, hn⟩ | ⟨cmd2, -, -, ⟨-, hn⟩ | ⟨-, hn⟩⟩
    · rw [hn]; exact hlt
    · rw [hn]; exact hlt
    · rw [hn]; exact Nat.lt_succ_of_lt hlt
  · intro c hc hop
    have hc2 : c ∈ s.pending ++ queued :=
      hsub.subset (List.mem_append_right _ hc)
    rcases List.mem_append.1 hc2 with hc3 | hc3
    · exact hown c hc3 hop
    · rcases hq with ⟨hq0, -⟩ | ⟨cmd2, hq1, -, ⟨ha, -⟩ | ⟨ha, -⟩⟩
      · simp [hq0] at hc3
      · rw [hq1, List.mem_singleton] at hc3
        rw [hc3, ha] at hop
        exact absurd hop (by simp)
      · rw [hq1, List.mem_singleton] at hc3
        rw [hc3, ha] at hop
        have h2 : s.nextAsyncOp = op := by simpa using hop
        rw [h2] at hlt
        exact absurd hlt (Nat.lt_irrefl _)

theorem runSteps_owns (sts : List Step) (s : World) (op : AsyncOp) (cmd : QueuedCommand)
    (hs : s.Consistent) (h : s.Owns op cmd) : (runSteps sts s).Owns op cmd := by
  induction sts generalizing s with
  | nil => exact h
  | cons st sts ih =>
    exact ih (st.run s) (Step.run_consistent st s hs) (Step.run_owns st s op cmd hs.1 h)

theorem Step.run_completes_own (st : Step) (s : World) (op : AsyncOp) (cmd : QueuedCommand)
    (hk : ∀ k ∈ s.coreQueue, k < s.batches.length) (h : s.Owns op cmd)
    (hp : s.isPending op = true) (hc : (st.run s).isCompleted op = true) :
    cmd.coreCall s.videoModes ∈ (st.run s).coreTrace.drop s.coreTrace.length := by
  obtain ⟨-, hown⟩ := h
  obtain ⟨executed, queued, htr, hcomp, hsub, hq, -, -⟩ := Step.run_effect st s hk
  have hp2 : op ∉ s.completed := by simpa [World.isPending] using hp
  have hc2 : op ∈ (st.run s).completed := by simpa [World.isCompleted] using hc
  rw [hcomp] at hc2
  rcases List.mem_append.1 hc2 with hc3 | hc3
  · exact absurd hc3 hp2
  · obtain ⟨c, hce, hcop⟩ := List.mem_filterMap.1 hc3
    have hcp : c ∈ s.pending := by
      rcases hq with ⟨hq0, -⟩ | ⟨cmd2, -, he, -⟩
      · have := hsub.subset (List.mem_append_left _ hce)
        simpa [hq0] using this
      · simp [he] at hce
    have hcc : c = cmd := hown c hcp hcop
    rw [htr, List.drop_left]
    exact List.mem_map.2 ⟨c, hce, by rw [hcc]⟩

/-! ## The command of a returned `AsyncOp` -/

theorem AccessorCall.run_pending_of_queues (c : AccessorCall) (s : World)
    (h : c.queues = true) : (c.run s).pending = s.pending ++ (c.command s).toList := by
  obtain ⟨hb, hcq, -, -, -⟩ := AccessorCall.run_core_of_queues c s h
  rw [World.pending_eq, World.pending_eq, hb, hcq,
    AccessorCall.run_mCommands_of_queues c s h, List.append_assoc]

theorem AccessorCall.result_spec (c : AccessorCall) (s : World) (op : AsyncOp)
    (hop : c.result s = some op) :
    c.queues = true ∧ c.returnsAsyncOp = true ∧ op = s.nextAsyncOp ∧
      ∃ cb, c.command s = some (.withReturn cb op) := by
  cases c <;>
    simp_all [AccessorCall.result, AccessorCall.queues, AccessorCall.isNoResult,
      AccessorCall.returnsAsyncOp, AccessorCall.command, CommandQueueBase.queueReturn,
      GpuResourceData._lock, GpuResource._writeSubresourceSim]

theorem AccessorCall.run_owns_result (c : AccessorCall) (s : World) (op : AsyncOp)
    (cmd : QueuedCommand) (hs : s.Consistent) (hop : c.result s = some op)
    (hcmd : c.command s = some cmd) : (c.run s).Owns op cmd := by
  obtain ⟨hq, -, hnext, cb, hcb⟩ := AccessorCall.result_spec c s op hop
  have hcmd2 : cmd = .withReturn cb op := by
    rw [hcmd] at hcb
    exact Option.some.inj hcb
  constructor
  · rcases AccessorCall.command_asyncOp c s cmd hcmd with ⟨ha, -⟩ | ⟨-, hn⟩
    · rw [hcmd2] at ha
      simp [QueuedCommand.asyncOp?] at ha
    · rw [hn, hnext]
      exact Nat.lt_succ_self _
  · intro c2 hc2 hop2
    rw [AccessorCall.run_pending_of_queues c s hq, hcmd] at hc2
    rcases List.mem_append.1 hc2 with hc3 | hc3
    · have hmem : op ∈ s.asyncOpsInUse :=
        List.mem_append_right _ (List.mem_filterMap.2 ⟨c2, hc3, hop2⟩)
      have hlt := hs.2.2 op hmem
      rw [hnext] at hlt
      exact absurd hlt (Nat.lt_irrefl _)
    · simpa using hc3

/-! ## C8: a second write with the same data is queued after the first -/

/-- C8: for every resource and data buffer `D`, from a consistent state: when
`writeSubresource` is called a second time with the same `D`, after any steps in between,
the second write is not rejected: its command is appended at the end of the queue, with an
`AsyncOp` of its own; it is the last of the pending commands, so that, if the command of
the first write has not been executed (it is still pending), it stands before the command
of the second write; and the core thread executes the pending commands in this order, one
after the other. -/
theorem C8_second_write_is_queued_after (s : World) (r1 i1 : Nat) (data : GpuResourceDataPtr)
    (x1 : Bool) (between : List Step) (r2 i2 : Nat) (x2 : Bool) (hs : s.Consistent) :
    let first := CoreThreadAccessorBase.writeSubresource r1 i1 data x1 s
    let mid := runSteps between first.2
    let second := CoreThreadAccessorBase.writeSubresource r2 i2 data x2 mid
    let c1 : QueuedCommand := .withReturn (.writeSubresource r1 i1 data x1) first.1
    let c2 : QueuedCommand := .withReturn (.writeSubresource r2 i2 data x2) second.1
    second.2.mCommands = mid.mCommands ++ [c2] ∧
      first.1 < second.1 ∧
      second.2.pending = mid.pending ++ [c2] ∧
      (c1 ∈ mid.pending → ∃ pre post, second.2.pending = pre ++ c1 :: post ++ [c2]) ∧
      (CoreThreadAccessorBase.submitToCoreThread true second.2).coreTrace
        = second.2.coreTrace ++
          second.2.pending.map (QueuedCommand.coreCall second.2.videoModes) := by
  intro first mid second c1 c2
  have hfirst : first.2 = (AccessorCall.writeSubresource r1 i1 data x1).run s := rfl
  have hsecond : second.2 = (AccessorCall.writeSubresource r2 i2 data x2).run mid := rfl
  have hcons1 : first.2.Consistent := by
    rw [hfirst]
    exact Step.run_consistent (.call _) s hs
  have hown1 : first.2.Owns first.1 c1 := by
    rw [hfirst]
    exact AccessorCall.run_owns_result _ s first.1 c1 hs rfl
      (by simp [AccessorCall.command, c1, first, CommandQueueBase.queueReturn,
        GpuResourceData._lock, GpuResource._writeSubresourceSim])
  have hconsm : mid.Consistent := runSteps_consistent between first.2 hcons1
  have hownm : mid.Owns first.1 c1 := runSteps_owns between first.2 first.1 c1 hcons1 hown1
  have hcons2 : second.2.Consistent := by
    rw [hsecond]
    exact Step.run_consistent (.call _) mid hconsm
  have hpend : second.2.pending = mid.pending ++ [c2] := by
    rw [hsecond,
      AccessorCall.run_pending_of_queues (AccessorCall.writeSubresource r2 i2 data x2) mid rfl]
    simp [AccessorCall.command, c2, second, CommandQueueBase.queueReturn,
      GpuResourceData._lock, GpuResource._writeSubresourceSim]
  refine ⟨?_, ?_, hpend, ?_, ?_⟩
  · simp [second, c2, CommandQueueBase.queueReturn, GpuResourceData._lock,
      GpuResource._writeSubresourceSim]
  · have h2 : second.1 = mid.nextAsyncOp := by
      simp [second, CommandQueueBase.queueReturn, GpuResourceData._lock,
        GpuResource._writeSubresourceSim]
    rw [h2]
    exact hownm.1
  · intro hmem
    obtain ⟨pre, post, hpp⟩ := List.append_of_mem hmem
    exact ⟨pre, post, by rw [hpend, hpp, List.append_assoc, List.cons_append]⟩
  · rw [CoreThreadAccessorBase.submitToCoreThread_coreTrace]
    simp only [if_true, World.pending_eq, flatMap_getD_concat _ _ _ hcons2.1]

/-- C8, at a concrete input: two writes of the same data buffer 5 from a fresh accessor,
with a draw in between. -/
theorem C8_second_write_is_queued_after_witness :
    World.init.Consistent ∧
      (CoreThreadAccessorBase.writeSubresource 2 0 5 true
        (runSteps [Step.call (AccessorCall.draw 0 3)]
          (CoreThreadAccessorBase.writeSubresource 1 0 5 false World.init).2)).2.pending
        = (runSteps [Step.call (AccessorCall.draw 0 3)]
            (CoreThreadAccessorBase.writeSubresource 1 0 5 false World.init).2).pending
          ++ [.withReturn (.writeSubresource 2 0 5 true)
            (CoreThreadAccessorBase.writeSubresource 2 0 5 true
              (runSteps [Step.call (AccessorCall.draw 0 3)]
                (CoreThreadAccessorBase.writeSubresource 1 0 5 false World.init).2)).1] :=
  ⟨by decide,
    (C8_second_write_is_queued_after World.init 1 0 5 false
      [Step.call (AccessorCall.draw 0 3)] 2 0 true (by decide)).2.2.1⟩

/-! ## C10: the life of a returned `AsyncOp` -/

theorem runSteps_map_call (cs : List AccessorCall) (s : World) :
    runSteps (cs.map Step.call) s = runCalls cs s := by
  induction cs generalizing s with
  | nil => rfl
  | cons c cs ih => exact ih (c.run s)

theorem AccessorCall.run_completed_of_ne (c : AccessorCall) (s : World)
    (h : c ≠ .submitToCoreThread true) : (c.run s).completed = s.completed := by
  rcases c.queues_or with hq | ⟨b, rfl⟩ | rfl
  · exact (AccessorCall.run_core_of_queues c s hq).2.2.2.1
  · cases b
    · show (CoreThreadAccessorBase.submitToCoreThread false s).completed = s.completed
      rw [CoreThreadAccessorBase.submitToCoreThread_false]
    · exact absurd rfl h
  · simp [AccessorCall.run, CommandQueueBase.cancelAll]

theorem runCalls_completed_of_not_mem (cs : List AccessorCall) (s : World)
    (h : AccessorCall.submitToCoreThread true ∉ cs) :
    (runCalls cs s).completed = s.completed := by
  induction cs generalizing s with
  | nil => rfl
  | cons c cs ih =>
    rw [runCalls_cons, ih (c.run s) (fun hm => h (List.mem_cons_of_mem _ hm)),
      AccessorCall.run_completed_of_ne c s (fun hc => h (by rw [hc]; exact List.mem_cons_self _ _))]

theorem runCalls_pending_of_queues (cs : List AccessorCall) (s : World)
    (h : ∀ c ∈ cs, c.queues = true) : ∃ more, (runCalls cs s).pending = s.pending ++ more := by
  induction cs generalizing s with
  | nil => exact ⟨[], by simp [runCalls]⟩
  | cons c cs ih =>
    obtain ⟨more, hm⟩ := ih (c.run s) (fun x hx => h x (List.mem_cons_of_mem _ hx))
    refine ⟨(c.command s).toList ++ more, ?_⟩
    rw [runCalls_cons, hm,
      AccessorCall.run_pending_of_queues c s (h c (List.mem_cons_self _ _)),
      List.append_assoc]

theorem Step.run_notSubmitted (st : Step) (w : World) (op : AsyncOp)
    (hst : ∀ x, st = .call x → x.isSubmit = false) (h : w.NotSubmitted op) :
    (st.run w).NotSubmitted op := by
  obtain ⟨hc, hb⟩ := h
  cases st with
  | call x =>
    rcases x.queues_or with hq | ⟨b, rfl⟩ | rfl
    · obtain ⟨h1, h2, -, h4, -⟩ := AccessorCall.run_core_of_queues x w hq
      simp only [World.NotSubmitted, Step.run, h1, h2, h4]
      exact ⟨hc, hb⟩
    · exact absurd (hst _ rfl) (by simp [AccessorCall.isSubmit])
    · exact ⟨hc, hb⟩
  | coreRun =>
    cases hq : w.coreQueue with
    | nil =>
      have : CoreThread.runNext w = w := by simp [CoreThread.runNext, hq]
      simp only [Step.run, this]
      exact ⟨hc, hb⟩
    | cons k rest =>
      rw [hq] at hb
      simp only [Step.run]
      rw [CoreThread.runNext_eq, CommandQueueBase.invokeAll_eq]
      simp only [hq, List.head?_cons, Option.elim, List.tail_cons, World.NotSubmitted,
        filterMap_completes_map_coreCall]
      constructor
      · intro hmem
        rcases List.mem_append.1 hmem with h1 | h1
        · exact hc h1
        · obtain ⟨x, hx, hxop⟩ := List.mem_filterMap.1 h1
          exact hb x (by simpa [World.batch] using Or.inl hx) hxop
      · intro x hx
        exact hb x (by
          rw [List.flatMap_cons]
          exact List.mem_append_right _ hx)

theorem runSteps_notSubmitted (sts : List Step) (w : World) (op : AsyncOp)
    (hst : ∀ x, Step.call x ∈ sts → x.isSubmit = false) (h : w.NotSubmitted op) :
    (runSteps sts w).NotSubmitted op := by
  induction sts generalizing w with
  | nil => exact h
  | cons st sts ih =>
    exact ih (st.run w) (fun x hx => hst x (List.mem_cons_of_mem _ hx))
      (Step.run_notSubmitted st w op
        (fun x hx => hst x (by rw [hx]; exact List.mem_cons_self _ _)) h)

/-- C10, as the code has it: from a consistent state (the state of a fresh accessor is
consistent and every step keeps it so), the `AsyncOp` returned by `writeSubresource`,
`readSubresource` or `queueReturnCommand` is Pending when the call returns; it stays
Pending through every sequence of further accessor calls that are not submits, whatever
the core thread runs in between, up to and including a non-blocking
`submitToCoreThread(false)`; in whatever step it becomes Completed, that step executed the
command queued by the call that returned it; and it is never completed twice, whatever
happens later. -/
theorem C10_asyncOp_lifecycle (s : World) (c : AccessorCall) (op : AsyncOp)
    (hs : s.Consistent) (hop : c.result s = some op) :
    (c.run s).isPending op = true ∧
      (∀ sts : List Step, (∀ x, Step.call x ∈ sts → x.isSubmit = false) →
        (runSteps sts (c.run s)).isPending op = true ∧
        (CoreThreadAccessorBase.submitToCoreThread false
          (runSteps sts (c.run s))).isPending op = true) ∧
      (∃ cmd, c.command s = some cmd ∧ cmd.asyncOp? = some op ∧
        ∀ (sts : List Step) (st : Step),
          (runSteps sts (c.run s)).isPending op = true →
          (st.run (runSteps sts (c.run s))).isCompleted op = true →
          cmd.coreCall (runSteps sts (c.run s)).videoModes ∈
            (st.run (runSteps sts (c.run s))).coreTrace.drop
              (runSteps sts (c.run s)).coreTrace.length) ∧
      (∀ sts : List Step, (runSteps sts (c.run s)).completions op ≤ 1) := by
  obtain ⟨hq, -, hnext, cb, hcb⟩ := AccessorCall.result_spec c s op hop
  have hcons : (c.run s).Consistent := Step.run_consistent (.call c) s hs
  have hown : (c.run s).Owns op (.withReturn cb op) :=
    AccessorCall.run_owns_result c s op _ hs hop hcb
  obtain ⟨hb1, hb2, -, hb4, -⟩ := AccessorCall.run_core_of_queues c s hq
  have hpend0 : op ∉ (c.run s).completed := by
    rw [hb4]
    intro hmem
    have hlt := hs.2.2 op (List.mem_append_left _ hmem)
    rw [hnext] at hlt
    exact absurd hlt (Nat.lt_irrefl _)
  have hns : (c.run s).NotSubmitted op := by
    refine ⟨hpend0, ?_⟩
    rw [hb1, hb2]
    intro x hx hxop
    have hmem : op ∈ s.asyncOpsInUse :=
      List.mem_append_right _ (List.mem_filterMap.2
        ⟨x, by rw [World.pending_eq]; exact List.mem_append_left _ hx, hxop⟩)
    have hlt := hs.2.2 op hmem
    rw [hnext] at hlt
    exact absurd hlt (Nat.lt_irrefl _)
  refine ⟨?_, ?_, ⟨.withReturn cb op, hcb, rfl, ?_⟩, ?_⟩
  · simpa [World.isPending] using hpend0
  · intro sts hsts
    have h1 := (runSteps_notSubmitted sts (c.run s) op hsts hns).1
    constructor
    · simpa [World.isPending] using h1
    · rw [CoreThreadAccessorBase.submitToCoreThread_false]
      simpa [World.isPending] using h1
  · intro sts st hp hc
    exact Step.run_completes_own st _ op _ (runSteps_consistent sts _ hcons).1
      (runSteps_owns sts _ op _ hcons hown) hp hc
  · intro sts
    have hnd := (runSteps_consistent sts _ hcons).2.1
    exact List.nodup_iff_count_le_one.1 (List.Nodup.of_append_left hnd) op

/-- C10, at a concrete input: the executor holds a submitted batch with one draw; a
subresource write then returns the `AsyncOp` with handle 0, which is still Pending after a
further draw call, a run of the core thread (which plays the earlier batch back) and a
non-blocking submit. -/
theorem C10_asyncOp_lifecycle_witness :
    (CoreThreadAccessorBase.submitToCoreThread false
        (CoreThreadAccessorBase.draw 0 3 World.init)).Consistent ∧
      (AccessorCall.writeSubresource 1 0 2 false).result
        (CoreThreadAccessorBase.submitToCoreThread false
          (CoreThreadAccessorBase.draw 0 3 World.init)) = some 0 ∧
      (CoreThreadAccessorBase.submitToCoreThread false
        (runSteps [Step.call (AccessorCall.draw 3 6), Step.coreRun]
          ((AccessorCall.writeSubresource 1 0 2 false).run
            (CoreThreadAccessorBase.submitToCoreThread false
              (CoreThreadAccessorBase.draw 0 3 World.init))))).isPending 0 = true :=
  ⟨by decide, rfl,
    ((C10_asyncOp_lifecycle
      (CoreThreadAccessorBase.submitToCoreThread false
        (CoreThreadAccessorBase.draw 0 3 World.init))
      (AccessorCall.writeSubresource 1 0 2 false) 0 (by decide) rfl).2.1
      [Step.call (AccessorCall.draw 3 6), Step.coreRun]
      (by
        intro x hx
        simp only [List.mem_cons, Step.call.injEq, List.mem_singleton, List.not_mem_nil,
          or_false] at hx
        rcases hx with rfl | hx
        · rfl
        · exact absurd hx (by simp))).2⟩

/-- C10 as stated fails: after `writeSubresource` and a blocking `submitToCoreThread(true)`
the returned `AsyncOp` is Completed, not Pending, when the submit returns. -/
theorem C10_blocking_submit_completes :
    (runCalls [AccessorCall.submitToCoreThread true]
        (CoreThreadAccessorBase.writeSubresource 1 0 2 false World.init).2).isPending
        (CoreThreadAccessorBase.writeSubresource 1 0 2 false World.init).1 = false ∧
      (runCalls [AccessorCall.submitToCoreThread true]
        (CoreThreadAccessorBase.writeSubresource 1 0 2 false World.init).2).isCompleted
        (CoreThreadAccessorBase.writeSubresource 1 0 2 false World.init).1 = true := by
  decide

/-! ## C13: blocking and non-blocking submits -/

/-- C13, on the modelled executor: for every state, when `submitToCoreThread(true)` returns,
the executor holds nothing that is still to run, and the operations performed on the core
thread end with the operation of every command of the submitted batch, in the order of the
batch (after those of the batches accepted earlier); when `submitToCoreThread(false)`
returns, no operation has been performed on the core thread, no `AsyncOp` completed and no
buffer unlocked since the call was made, and the submitted batch is the last one the
executor holds, with all of its commands; when the core thread then runs, it performs the
operations the blocking submit would have performed before it returned. -/
theorem C13_submit_blocks_only_when_asked (s : World) :
    ((CoreThreadAccessorBase.submitToCoreThread true s).coreQueue = [] ∧
      (CoreThreadAccessorBase.submitToCoreThread true s).batch s.batches.length
        = s.mCommands ∧
      ∃ earlier : List CoreCall,
        (CoreThreadAccessorBase.submitToCoreThread true s).coreTrace
          = s.coreTrace ++ earlier ++ s.mCommands.map (QueuedCommand.coreCall s.videoModes)) ∧
    ((CoreThreadAccessorBase.submitToCoreThread false s).coreTrace = s.coreTrace ∧
      (CoreThreadAccessorBase.submitToCoreThread false s).completed = s.completed ∧
      (CoreThreadAccessorBase.submitToCoreThread false s).locked = s.locked ∧
      (CoreThreadAccessorBase.submitToCoreThread false s).coreQueue
        = s.coreQueue ++ [s.batches.length] ∧
      (CoreThreadAccessorBase.submitToCoreThread false s).batch s.batches.length
        = s.mCommands ∧
      (CoreThread.runAll (CoreThreadAccessorBase.submitToCoreThread false s)).coreTrace
        = (CoreThreadAccessorBase.submitToCoreThread true s).coreTrace) := by
  have hget : (s.batches ++ [s.mCommands]).getD s.batches.length [] = s.mCommands := by
    simp [List.getD]
  refine ⟨⟨?_, ?_, ?_⟩, ?_, ?_, ?_, ?_, ?_, ?_⟩
  · rw [CoreThreadAccessorBase.submitToCoreThread_true, CommandQueueBase.invokeAll_eq]
  · rw [CoreThreadAccessorBase.submitToCoreThread_true, CommandQueueBase.invokeAll_eq]
    exact hget
  · refine ⟨(s.coreQueue.flatMap (fun k => (s.batches ++ [s.mCommands]).getD k [])).map
      (QueuedCommand.coreCall s.videoModes), ?_⟩
    rw [CoreThreadAccessorBase.submitToCoreThread_coreTrace]
    simp
  · rw [CoreThreadAccessorBase.submitToCoreThread_false]
  · rw [CoreThreadAccessorBase.submitToCoreThread_false]
  · rw [CoreThreadAccessorBase.submitToCoreThread_false]
  · rw [CoreThreadAccessorBase.submitToCoreThread_false]
  · rw [CoreThreadAccessorBase.submitToCoreThread_false]
    exact hget
  · rw [CoreThreadAccessorBase.submitToCoreThread_coreTrace,
      CoreThreadAccessorBase.submitToCoreThread_false, CoreThread.runAll_eq,
      CommandQueueBase.invokeAll_eq]
    have hb : ∀ w : World, w.batch = fun k => w.batches.getD k [] := fun _ => rfl
    simp [hb, hget]

/-! ## Replaying the command of a call -/

theorem AccessorCall.queued_of_queues (c : AccessorCall) (s : World) (h : c.queues = true) :
    c.queued s = (c.command s).toList := by
  unfold AccessorCall.queued
  rw [AccessorCall.run_mCommands_of_queues c s h, List.drop_left]

theorem AccessorCall.replay_of_queues (c : AccessorCall) (s w : World)
    (h : c.queues = true) :
    c.replay s w = (c.command s).toList.map (QueuedCommand.coreCall w.videoModes) := by
  unfold AccessorCall.replay
  rw [AccessorCall.queued_of_queues c s h, CommandQueueBase.invokeAll_eq]
  simp only [List.drop_left]

theorem AccessorCall.coreCall_of_bound_by_value (c : AccessorCall) (s : World)
    (cmd : QueuedCommand) (hcmd : c.command s = some cmd)
    (hc : ∀ w m, c ≠ .setFullscreenMode w m) (videoModes videoModes2 : List VideoMode) :
    cmd.coreCall videoModes = cmd.coreCall videoModes2 := by
  cases c <;>
    simp_all [AccessorCall.command] <;>
    subst hcmd <;> rfl

/-! ## C12: the `VideoMode` of `setFullscreen` is bound by reference -/

/-- C12 fails on the code: `setFullscreen(renderWindow, mode)` binds `std::cref(mode)`. With
the caller's `VideoMode` variable holding 1280 when the method is called, the command
replays `setFullscreen` with 640 after the caller has assigned 640 to the variable, and with
a reference to nothing after the caller has left the scope of the variable; only when the
variable is untouched is the call-time value 1280 replayed. A blocking submit after the
assignment performs the operation with 640. -/
theorem C12_setFullscreen_replays_the_changed_mode :
    (AccessorCall.setFullscreenMode 7 0).replay { World.init with videoModes := [1280] }
        (callerAssignsVideoMode 0 640
          ((AccessorCall.setFullscreenMode 7 0).run { World.init with videoModes := [1280] }))
        = [.renderWindow 7 (.setFullscreenMode (some 640))] ∧
      (AccessorCall.setFullscreenMode 7 0).replay { World.init with videoModes := [1280] }
        (callerReleasesVideoMode 0
          ((AccessorCall.setFullscreenMode 7 0).run { World.init with videoModes := [1280] }))
        = [.renderWindow 7 (.setFullscreenMode none)] ∧
      (AccessorCall.setFullscreenMode 7 0).replay { World.init with videoModes := [1280] }
        ((AccessorCall.setFullscreenMode 7 0).run { World.init with videoModes := [1280] })
        = [.renderWindow 7 (.setFullscreenMode (some 1280))] ∧
      (CoreThreadAccessorBase.submitToCoreThread true
        (callerAssignsVideoMode 0 640
          (CoreThreadAccessorBase.setFullscreenMode 7 0
            { World.init with videoModes := [1280] }))).coreTrace
        = [.renderWindow 7 (.setFullscreenMode (some 640))] := by
  decide

/-! ## C15: what a render-system wrapper replays -/

/-- C15, as the code has it: for every render-system wrapper without result, replaying the
command it queued performs exactly one operation, a render-system call; for every wrapper
but `bindGpuParams` it is the call of the same name with the wrapper's arguments in the
same order (`setScissorTest` as `setScissorRect`, `beginRender` as `beginFrame`, `endRender`
as `endFrame`); `bindGpuParams(gptype, params)` replays `bindGpuParams` with `gptype` and the
clone of `params` made when the wrapper was called, an object of its own that holds the
contents `params` had then. -/
theorem C15_wrapper_replays_one_render_call (c : AccessorCall) (s w : World)
    (h : c.isRenderSystemWrapper = true) :
    ∃ call : RenderSystemCall,
      c.replay s w = [.renderSystem call] ∧
      ((∀ g p, c ≠ .bindGpuParams g p) → c.sameNameCall = some call) ∧
      (∀ g p, c = .bindGpuParams g p →
        call = .bindGpuParams g s.gpuParams.length ∧
        (c.run s).gpuParams = s.gpuParams ++ [s.gpuParams.getD p 0]) := by
  have hq : c.queues = true := by
    cases c <;>
      simp_all [AccessorCall.isRenderSystemWrapper, AccessorCall.queues,
        AccessorCall.isNoResult]
  rw [AccessorCall.replay_of_queues c s w hq]
  cases c <;>
    simp_all [AccessorCall.isRenderSystemWrapper, AccessorCall.command,
      AccessorCall.sameNameCall, QueuedCommand.coreCall, AccessorCall.run,
      CommandQueueBase.queue, GpuParams._cloneForCore]

/-- C15, at a concrete input: `setScissorTest(1, 2, 3, 4)` replays
`setScissorRect(1, 2, 3, 4)`. -/
theorem C15_wrapper_replays_one_render_call_witness :
    (AccessorCall.setScissorTest 1 2 3 4).isRenderSystemWrapper = true ∧
      ∃ call : RenderSystemCall,
        (AccessorCall.setScissorTest 1 2 3 4).replay World.init World.init
          = [.renderSystem call] ∧
        ((∀ g p, AccessorCall.setScissorTest 1 2 3 4 ≠ .bindGpuParams g p) →
          (AccessorCall.setScissorTest 1 2 3 4).sameNameCall = some call) ∧
        (∀ g p, AccessorCall.setScissorTest 1 2 3 4 = .bindGpuParams g p →
          call = .bindGpuParams g World.init.gpuParams.length ∧
          ((AccessorCall.setScissorTest 1 2 3 4).run World.init).gpuParams
            = World.init.gpuParams ++ [World.init.gpuParams.getD p 0]) :=
  ⟨rfl,
    C15_wrapper_replays_one_render_call (AccessorCall.setScissorTest 1 2 3 4) World.init
      World.init rfl⟩

/-- C15 as stated fails for `bindGpuParams`: with one `GpuParams` object, handle 0,
`bindGpuParams(1, 0)` replays `bindGpuParams(1, 1)`, the call on the clone with handle 1, and
not the call with the wrapper's own argument, handle 0. -/
theorem C15_bindGpuParams_replays_the_clone :
    (AccessorCall.bindGpuParams 1 0).replay { World.init with gpuParams := [7] }
        ((AccessorCall.bindGpuParams 1 0).run { World.init with gpuParams := [7] })
        = [.renderSystem (.bindGpuParams 1 1)] ∧
      (AccessorCall.bindGpuParams 1 0).sameNameCall = some (.bindGpuParams 1 0) ∧
      (AccessorCall.bindGpuParams 1 0).replay { World.init with gpuParams := [7] }
        ((AccessorCall.bindGpuParams 1 0).run { World.init with gpuParams := [7] })
        ≠ ((AccessorCall.bindGpuParams 1 0).sameNameCall.map CoreCall.renderSystem).toList := by
  decide

/-! ## C16: what a window wrapper replays -/

/-- C16: for every render window `W` and all arguments, replaying the command queued by
`hideWindow(W)` performs exactly `W.setHidden(true)`, the one queued by `showWindow(W)`
exactly `W.setHidden(false)`, and the ones queued by `resizeWindow`, `moveWindow` and
`setWindowed` exactly `W.resize(width, height)`, `W.move(left, top)` and
`W.setWindowed(width, height)`, each on the window and with the arguments of the call,
whatever the states at the call and at playback are. -/
theorem C16_window_wrappers_replay (renderWindow : RenderWindowRaw) (width height : Nat)
    (left top : Int) (s w : World) :
    (AccessorCall.hideWindow renderWindow).replay s w
        = [.renderWindow renderWindow (.setHidden true)] ∧
      (AccessorCall.showWindow renderWindow).replay s w
        = [.renderWindow renderWindow (.setHidden false)] ∧
      (AccessorCall.resizeWindow renderWindow width height).replay s w
        = [.renderWindow renderWindow (.resize width height)] ∧
      (AccessorCall.moveWindow renderWindow left top).replay s w
        = [.renderWindow renderWindow (.move left top)] ∧
      (AccessorCall.setWindowed renderWindow width height).replay s w
        = [.renderWindow renderWindow (.setWindowed width height)] := by
  refine ⟨?_, ?_, ?_, ?_, ?_⟩
  · rw [AccessorCall.replay_of_queues (.hideWindow renderWindow) s w rfl]; rfl
  · rw [AccessorCall.replay_of_queues (.showWindow renderWindow) s w rfl]; rfl
  · rw [AccessorCall.replay_of_queues (.resizeWindow renderWindow width height) s w rfl]; rfl
  · rw [AccessorCall.replay_of_queues (.moveWindow renderWindow left top) s w rfl]; rfl
  · rw [AccessorCall.replay_of_queues (.setWindowed renderWindow width height) s w rfl]; rfl

/-! ## C17: `cancelAll` undoes no synchronous step -/

theorem callerWritesGpuParams_foldl_getElem? (params : GpuParamsPtr) (values : List Nat)
    (w : World) (k : Nat) (hk : params ≠ k) :
    (values.foldl (fun w v => callerWritesGpuParams params v w) w).gpuParams[k]?
      = w.gpuParams[k]? := by
  induction values generalizing w with
  | nil => rfl
  | cons v vs ih =>
    rw [List.foldl_cons, ih]
    simp [callerWritesGpuParams, List.getElem?_set_ne hk]

/-- C18: for every state, program type and live `params` object, `bindGpuParams(gptype,
params)` makes exactly one `_cloneForCore` call, on `params` and with the allocator
`gCoreThread().getFrameAlloc()`, the frame allocator of the core thread, and no clone from
any other allocator; it makes it on the calling thread and before it queues; the clone is a
new object with the contents of `params`, and the one command queued binds the
render-system call `bindGpuParams(gptype, clone)`, not the original; however often the
caller changes the contents of `params` afterwards, the clone keeps the contents `params`
had at the call and playback performs `bindGpuParams(gptype, clone)`. -/
theorem C18_bindGpuParams_binds_a_clone (s : World) (gptype : GpuProgramType)
    (params : GpuParamsPtr) (values : List Nat) (hp : params < s.gpuParams.length) :
    (CoreThreadAccessorBase.bindGpuParams gptype params s).simLog
        = s.simLog ++
          [.cloneForCore params CoreThread.getFrameAlloc s.gpuParams.length,
            .queue (.renderSystem (.bindGpuParams gptype s.gpuParams.length))] ∧
      (∀ (p : GpuParamsPtr) (a : FrameAlloc) (clone : GpuParamsPtr),
        SimEvent.cloneForCore p a clone ∈
          (CoreThreadAccessorBase.bindGpuParams gptype params s).simLog.drop s.simLog.length →
        p = params ∧ a = .coreThreadFrameAlloc ∧ clone = s.gpuParams.length) ∧
      (CoreThreadAccessorBase.bindGpuParams gptype params s).gpuParams
        = s.gpuParams ++ [s.gpuParams.getD params 0] ∧
      (AccessorCall.bindGpuParams gptype params).queued s
        = [.plain (.renderSystem (.bindGpuParams gptype s.gpuParams.length))] ∧
      s.gpuParams.length ≠ params ∧
      (values.foldl (fun w v => callerWritesGpuParams params v w)
          (CoreThreadAccessorBase.bindGpuParams gptype params s)).gpuParams[s.gpuParams.length]?
        = s.gpuParams[params]? ∧
      (AccessorCall.bindGpuParams gptype params).replay s
          (values.foldl (fun w v => callerWritesGpuParams params v w)
            (CoreThreadAccessorBase.bindGpuParams gptype params s))
        = [.renderSystem (.bindGpuParams gptype s.gpuParams.length)] := by
  have hne : params ≠ s.gpuParams.length := Nat.ne_of_lt hp
  refine ⟨?_, ?_, ?_, ?_, fun h => hne h.symm, ?_, ?_⟩
  · simp [CommandQueueBase.queue, GpuParams._cloneForCore]
  · intro p a clone hmem
    simpa [CommandQueueBase.queue, GpuParams._cloneForCore, CoreThread.getFrameAlloc]
      using hmem
  · simp [CommandQueueBase.queue, GpuParams._cloneForCore]
  · rw [AccessorCall.queued_of_queues (.bindGpuParams gptype params) s rfl]
    rfl
  · rw [callerWritesGpuParams_foldl_getElem? params values _ _ hne]
    simp [CommandQueueBase.queue, GpuParams._cloneForCore, List.getD_eq_getElem?_getD,
      List.getElem?_eq_getElem hp]
  · rw [AccessorCall.replay_of_queues (.bindGpuParams gptype params) s _ rfl]
    rfl

/-- C18, at a concrete input: one `GpuParams` object with contents 7 and a draw already
queued; `bindGpuParams(1, 0)` clones object 0 once, from the frame allocator of the core
thread, into the new object 1, and then queues. -/
theorem C18_bindGpuParams_binds_a_clone_witness :
    (0 : Nat) <
        (CoreThreadAccessorBase.draw 0 3 { World.init with gpuParams := [7] }).gpuParams.length ∧
      (CoreThreadAccessorBase.bindGpuParams 1 0
          (CoreThreadAccessorBase.draw 0 3 { World.init with gpuParams := [7] })).simLog
        = (CoreThreadAccessorBase.draw 0 3 { World.init with gpuParams := [7] }).simLog ++
          [.cloneForCore 0 CoreThread.getFrameAlloc
              (CoreThreadAccessorBase.draw 0 3
                { World.init with gpuParams := [7] }).gpuParams.length,
            .queue (.renderSystem (.bindGpuParams 1
              (CoreThreadAccessorBase.draw 0 3
                { World.init with gpuParams := [7] }).gpuParams.length))] :=
  ⟨by decide,
    (C18_bindGpuParams_binds_a_clone
      (CoreThreadAccessorBase.draw 0 3 { World.init with gpuParams := [7] }) 1 0 [8, 9]
      (by decide)).1⟩

/-! ## C14: a failing command does not stop the batch -/

theorem CommandQueueBase.invokeAllIsolating_eq (fails : QueuedCommand → Bool)
    (cmds : List QueuedCommand) (s : World) :
    CommandQueueBase.invokeAllIsolating fails cmds s
      = (CommandQueueBase.invokeAll (cmds.filter (fun c => !fails c)) s,
          cmds.filter fails) := by
  induction cmds generalizing s with
  | nil => rfl
  | cons c cs ih =>
    unfold CommandQueueBase.invokeAllIsolating
    by_cases hc : fails c = true
    · simp [hc, ih]
    · simp only [hc, Bool.false_eq_true, if_false, ih]
      simp [hc, CommandQueueBase.invokeAll]

/-- C14, on the model of playback the specification describes: for every batch and every
command `bad` in it that fails, the commands after it are still invoked, in order, on the
state the commands before it left: the result of playing the batch back is the result of
invoking, in order, every command before and after `bad` that does not fail itself, so the
operations of all of them are in the trace, and `bad` is reported as failed. -/
theorem C14_failing_command_is_isolated (fails : QueuedCommand → Bool)
    (pre post : List QueuedCommand) (bad : QueuedCommand) (s : World)
    (hbad : fails bad = true) :
    (CommandQueueBase.invokeAllIsolating fails (pre ++ bad :: post) s).1
        = (CommandQueueBase.invokeAllIsolating fails post
            (CommandQueueBase.invokeAllIsolating fails pre s).1).1 ∧
      (CommandQueueBase.invokeAllIsolating fails (pre ++ bad :: post) s).1
        = CommandQueueBase.invokeAll (post.filter (fun c => !fails c))
            (CommandQueueBase.invokeAll (pre.filter (fun c => !fails c)) s) ∧
      (CommandQueueBase.invokeAllIsolating fails (pre ++ bad :: post) s).1.coreTrace
        = s.coreTrace ++
          ((pre.filter (fun c => !fails c)) ++ (post.filter (fun c => !fails c))).map
            (QueuedCommand.coreCall s.videoModes) ∧
      bad ∈ (CommandQueueBase.invokeAllIsolating fails (pre ++ bad :: post) s).2 ∧
      (∀ (w : World) (commands : QueuePtr), w.batch commands = pre ++ bad :: post →
        (CommandQueueBase.playbackIsolating fails commands w).1
          = CommandQueueBase.invokeAll (post.filter (fun c => !fails c))
              (CommandQueueBase.invokeAll (pre.filter (fun c => !fails c)) w)) := by
  have hf : (pre ++ bad :: post).filter (fun c => !fails c)
      = pre.filter (fun c => !fails c) ++ post.filter (fun c => !fails c) := by
    simp [List.filter_append, List.filter_cons, hbad]
  refine ⟨?_, ?_, ?_, ?_, ?_⟩
  · simp only [CommandQueueBase.invokeAllIsolating_eq, hf, CommandQueueBase.invokeAll_append]
  · simp only [CommandQueueBase.invokeAllIsolating_eq, hf, CommandQueueBase.invokeAll_append]
  · simp only [CommandQueueBase.invokeAllIsolating_eq, hf, CommandQueueBase.invokeAll_eq]
  · simp [CommandQueueBase.invokeAllIsolating_eq, List.filter_append, List.filter_cons, hbad]
  · intro w commands hw
    simp only [CommandQueueBase.playbackIsolating, hw,
      CommandQueueBase.invokeAllIsolating_eq, hf, CommandQueueBase.invokeAll_append]

/-- C14, at a concrete input: a batch of a viewport change, a callback that fails and a
draw; the viewport change and the draw are performed. -/
theorem C14_failing_command_is_isolated_witness :
    failsUserCallback 0 (.plain (.user 0)) = true ∧
      (CommandQueueBase.invokeAllIsolating (failsUserCallback 0)
        ([.plain (.renderSystem (.setViewport 1))] ++
          .plain (.user 0) :: [.plain (.renderSystem (.draw 0 3))]) World.init).1.coreTrace
        = World.init.coreTrace ++
          (([QueuedCommand.plain (.renderSystem (.setViewport 1))].filter
              (fun c => !failsUserCallback 0 c)) ++
            ([QueuedCommand.plain (.renderSystem (.draw 0 3))].filter
              (fun c => !failsUserCallback 0 c))).map
            (QueuedCommand.coreCall World.init.videoModes) :=
  ⟨by decide,
    (C14_failing_command_is_isolated (failsUserCallback 0)
      [.plain (.renderSystem (.setViewport 1))] [.plain (.renderSystem (.draw 0 3))]
      (.plain (.user 0)) World.init (by decide)).2.2.1⟩

/-! ## C19: the materials of the built-in factory -/

/-- C19: after `startUp`, from whatever state of the factory, each `create…Material` method
returns a material created from the shader that the init function of the same name builds,
and the names of these shaders are "TextSpriteShader", "ImageSpriteShader",
"DebugDraw2DClipSpaceShader", "DebugDraw2DScreenSpaceShader", "DebugDraw3DShader",
"DockDropOverlayShader" and "DummyShader"; the two sprite materials have exactly one
sampler set, "mainTexSamp", to the GUI sampler state of the factory, and the five other
materials have none; the minification, magnification and mip filters of the GUI sampler
state are all `FO_POINT`. -/
theorem C19_materials_use_their_shaders (env : FactoryEnv) (f0 g : D3D11BuiltinMaterialFactory) :
    ((D3D11BuiltinMaterialFactory.startUp env f0).createSpriteTextMaterial.shader
        = (D3D11BuiltinMaterialFactory.initSpriteTextShader env g).mSpriteTextShader ∧
      (D3D11BuiltinMaterialFactory.startUp env f0).createSpriteImageMaterial.shader
        = (D3D11BuiltinMaterialFactory.initSpriteImageShader env g).mSpriteImageShader ∧
      (D3D11BuiltinMaterialFactory.startUp env f0).createDebugDraw2DClipSpaceMaterial.shader
        = (D3D11BuiltinMaterialFactory.initDebugDraw2DClipSpaceShader env
            g).mDebugDraw2DClipSpaceShader ∧
      (D3D11BuiltinMaterialFactory.startUp env f0).createDebugDraw2DScreenSpaceMaterial.shader
        = (D3D11BuiltinMaterialFactory.initDebugDraw2DScreenSpaceShader env
            g).mDebugDraw2DScreenSpaceShader ∧
      (D3D11BuiltinMaterialFactory.startUp env f0).createDebugDraw3DMaterial.shader
        = (D3D11BuiltinMaterialFactory.initDebugDraw3DShader env g).mDebugDraw3DShader ∧
      (D3D11BuiltinMaterialFactory.startUp env f0).createDockDropOverlayMaterial.shader
        = (D3D11BuiltinMaterialFactory.initDockDropOverlayShader env
            g).mDockDropOverlayShader ∧
      (D3D11BuiltinMaterialFactory.startUp env f0).createDummyMaterial.shader
        = (D3D11BuiltinMaterialFactory.initDummyShader env g).mDummyShader) ∧
    ((D3D11BuiltinMaterialFactory.startUp env f0).createSpriteTextMaterial.shader.map
        Shader.name = some "TextSpriteShader" ∧
      (D3D11BuiltinMaterialFactory.startUp env f0).createSpriteImageMaterial.shader.map
        Shader.name = some "ImageSpriteShader" ∧
      (D3D11BuiltinMaterialFactory.startUp env f0).createDebugDraw2DClipSpaceMaterial.shader.map
        Shader.name = some "DebugDraw2DClipSpaceShader" ∧
      (D3D11BuiltinMaterialFactory.startUp env
        f0).createDebugDraw2DScreenSpaceMaterial.shader.map
        Shader.name = some "DebugDraw2DScreenSpaceShader" ∧
      (D3D11BuiltinMaterialFactory.startUp env f0).createDebugDraw3DMaterial.shader.map
        Shader.name = some "DebugDraw3DShader" ∧
      (D3D11BuiltinMaterialFactory.startUp env f0).createDockDropOverlayMaterial.shader.map
        Shader.name = some "DockDropOverlayShader" ∧
      (D3D11BuiltinMaterialFactory.startUp env f0).createDummyMaterial.shader.map
        Shader.name = some "DummyShader") ∧
    ((D3D11BuiltinMaterialFactory.startUp env f0).createSpriteTextMaterial.samplerStates
        = [("mainTexSamp", (D3D11BuiltinMaterialFactory.startUp env f0).mGUISamplerState)] ∧
      (D3D11BuiltinMaterialFactory.startUp env f0).createSpriteImageMaterial.samplerStates
        = [("mainTexSamp", (D3D11BuiltinMaterialFactory.startUp env f0).mGUISamplerState)] ∧
      (D3D11BuiltinMaterialFactory.startUp env
        f0).createDebugDraw2DClipSpaceMaterial.samplerStates = [] ∧
      (D3D11BuiltinMaterialFactory.startUp env
        f0).createDebugDraw2DScreenSpaceMaterial.samplerStates = [] ∧
      (D3D11BuiltinMaterialFactory.startUp env f0).createDebugDraw3DMaterial.samplerStates
        = [] ∧
      (D3D11BuiltinMaterialFactory.startUp env f0).createDockDropOverlayMaterial.samplerStates
        = [] ∧
      (D3D11BuiltinMaterialFactory.startUp env f0).createDummyMaterial.samplerStates = []) ∧
    (∃ st : SamplerState,
      (D3D11BuiltinMaterialFactory.startUp env f0).mGUISamplerState = some st ∧
      st.desc.minFilter = .FO_POINT ∧ st.desc.magFilter = .FO_POINT ∧
      st.desc.mipFilter = .FO_POINT) := by
  refine ⟨⟨rfl, rfl, rfl, rfl, rfl, rfl, rfl⟩, ⟨rfl, rfl, rfl, rfl, rfl, rfl, rfl⟩,
    ⟨rfl, rfl, rfl, rfl, rfl, rfl, rfl⟩, ⟨_, rfl, rfl, rfl, rfl⟩⟩

end BansheeEngine
